import Mathlib

/-!
Shallow embedding of the `ld-agent-plugins` repository (python_plugins/batteryshark)
together with theorems settling the frozen claims about it.

Conventions used throughout:
* Python exceptions are modelled by the inductive `PyErr`; fallible code returns
  `Except PyErr _` and `try/except` blocks become pattern matches on that value.
* External effects (subprocesses, HTTP, the filesystem) are passed in as explicit
  oracle parameters; the theorems quantify over every possible behaviour of those
  oracles.
* Filesystem paths handled by `Path.resolve` / `Path.relative_to` are modelled as
  lists of already-resolved path components.
* Python `dict`s (insertion ordered) are modelled as association lists with
  insert-or-replace assignment.
-/

namespace LdAgentPlugins

/-- Python exception values, carrying their message. -/
inductive PyErr where
  | permissionError (msg : String)
  | valueError (msg : String)
  | runtimeError (msg : String)
  | fileNotFoundError (msg : String)
  | unicodeDecodeError (msg : String)
  | timeoutExpired (msg : String)
  | otherError (msg : String)
deriving Repr, DecidableEq

/-- Message carried by a `PyErr` (Python `str(e)`). -/
def PyErr.message : PyErr → String
  | .permissionError m => m
  | .valueError m => m
  | .runtimeError m => m
  | .fileNotFoundError m => m
  | .unicodeDecodeError m => m
  | .timeoutExpired m => m
  | .otherError m => m

/-- Python `str.lower()` (ASCII case folding). -/
def pyLower (s : String) : String :=
  ⟨s.data.map Char.toLower⟩

/-- Python `str.strip()`: drop leading and trailing whitespace. -/
def pyStrip (s : String) : String :=
  ⟨((s.data.dropWhile Char.isWhitespace).reverse.dropWhile Char.isWhitespace).reverse⟩

/-- Python `str.replace(pat, repl)` for the single-character patterns used in
this repository. -/
def pyReplaceChar (s : String) (pat repl : Char) : String :=
  ⟨s.data.map (fun c => if c = pat then repl else c)⟩

/-- Boolean infix test on character lists. -/
def infixOfB (needle : List Char) : List Char → Bool
  | [] => needle.isEmpty
  | c :: t => needle.isPrefixOf (c :: t) || infixOfB needle t

/-- Case-insensitive substring test: `re.search(literal, s, re.IGNORECASE)` for a
literal pattern, and Python `sub in s.lower()`. -/
def containsCI (hay needle : String) : Bool :=
  infixOfB (pyLower needle).data (pyLower hay).data

/-- Python dict lookup on an insertion-ordered association list. -/
def dlookup {α : Type} (m : List (String × α)) (k : String) : Option α :=
  match m with
  | [] => none
  | (k0, v) :: rest => if k0 = k then some v else dlookup rest k

/-- Python dict assignment `m[k] = v`: replace in place if present, else append. -/
def dinsert {α : Type} (m : List (String × α)) (k : String) (v : α) : List (String × α) :=
  match m with
  | [] => [(k, v)]
  | (k0, v0) :: rest => if k0 = k then (k, v) :: rest else (k0, v0) :: dinsert rest k v

/-- Python dict deletion `del m[k]`. -/
def derase {α : Type} (m : List (String × α)) (k : String) : List (String × α) :=
  match m with
  | [] => []
  | (k0, v0) :: rest => if k0 = k then rest else (k0, v0) :: derase rest k

/-! ## Ripgrep plugin (`ripgrep_tools/implementation.py`) -/

/-- A filesystem path, already resolved (`Path(p).resolve()`), as its components. -/
abbrev RPath := List String

/-- The module-level `_plugin_config` dictionary of the ripgrep plugin. -/
structure RgConfig where
  initialized : Bool
  mode : String
  allowedPaths : List RPath
  blockedPatterns : List String
  maxResults : Nat
  maxFilesize : String
  timeoutSeconds : Nat
deriving Repr, DecidableEq

/-- `_check_initialized`: raise `RuntimeError` unless initialized. -/
def checkInitialized (cfg : RgConfig) : Except PyErr Unit :=
  if cfg.initialized then .ok ()
  else .error (.runtimeError "Plugin has not been initialized. Call initialize_ripgrep_plugin() first.")

/-- `Path.relative_to` succeeds exactly when `allowed` is a component-prefix of `p`. -/
def isUnder (p allowed : RPath) : Bool :=
  allowed.isPrefixOf p

/-- The per-path loop of `_validate_paths`: accumulate resolved paths, raising
`PermissionError` at the first path not under any allowed path. -/
def validateLoop (allowed : List RPath) : List RPath → Except PyErr (List RPath)
  | [] => .ok []
  | p :: rest =>
    if allowed.any (fun a => isUnder p a) then
      match validateLoop allowed rest with
      | .ok vs => .ok (p :: vs)
      | .error e => .error e
    else
      .error (.permissionError "Path is not within allowed search boundaries.")

/-- `_validate_paths`: with `paths=None` return the configured allowed paths,
otherwise check every path against the allowlist. -/
def validatePaths (cfg : RgConfig) (paths : Option (List RPath)) : Except PyErr (List RPath) :=
  match checkInitialized cfg with
  | .error e => .error e
  | .ok _ =>
    match paths with
    | none => .ok cfg.allowedPaths
    | some ps => validateLoop cfg.allowedPaths ps

/-- The literal regexes of `_should_block_pattern` (each is a fixed string once
the escaped dots are unescaped). -/
def dangerousPatterns : List String :=
  [".env", ".key", ".pem", "password", "secret",
   "/etc/", "/var/", "/usr/", "/bin/", "/sbin/",
   "id_rsa", "private", "token"]

/-- `_should_block_pattern`: blocking only happens in `remote` mode, via a
case-insensitive substring scan of the dangerous patterns. -/
def shouldBlockPattern (cfg : RgConfig) (pattern : String) : Except PyErr Bool :=
  match checkInitialized cfg with
  | .error e => .error e
  | .ok _ =>
    if cfg.mode = "remote" then
      .ok (dangerousPatterns.any (fun d => containsCI pattern d))
    else
      .ok false

/-- Python `str.lstrip(".")`: drop every leading dot. -/
def lstripDots (s : String) : String :=
  ⟨s.data.dropWhile (fun c => c = '.')⟩

/-- Render a resolved path back to the string form `str(path_obj)`. -/
def renderPath (p : RPath) : String :=
  "/" ++ String.intercalate "/" p

/-- `_build_ripgrep_command`, following the argument order of the source. -/
def buildRipgrepCommand (cfg : RgConfig) (pattern : String) (paths : List RPath)
    (fileTypes : Option (List String)) (contextLines : Nat)
    (caseSensitive wholeWords filesOnly : Bool) (maxCount : Option Nat) : List String :=
  let cmd := ["rg"]
  let cmd := cmd ++ (if caseSensitive then [] else ["--smart-case"])
  let cmd := cmd ++ (if wholeWords then ["--word-regexp"] else [])
  let cmd := cmd ++ (if filesOnly then ["--files-with-matches"] else [])
  let cmd := cmd ++ (if contextLines > 0 then ["-C", toString contextLines] else [])
  let cmd := cmd ++ (match fileTypes with
    | some fts => fts.flatMap (fun ft => ["-t", lstripDots ft])
    | none => [])
  let cmd := cmd ++ ["--json", "--line-number", "--column"]
  let cmd := cmd ++ (if cfg.maxFilesize ≠ "" then ["--max-filesize", cfg.maxFilesize] else [])
  let cmd := cmd ++ cfg.blockedPatterns.flatMap (fun b => ["--glob", "!" ++ b])
  let cmd := cmd ++ (match maxCount with
    | some k => if k ≠ 0 then ["-m", toString k] else []
    | none => [])
  cmd ++ [pattern] ++ paths.map renderPath

/-- One match record produced by `_parse_ripgrep_json_output`. -/
structure RgMatch where
  file : String
  line : Option Nat
  column : Nat
  content : String
deriving Repr, DecidableEq

/-- The `query` sub-dictionary echoed by `search_pattern_impl`; `maxResults` is
present only in the success dictionary. -/
structure SearchQuery where
  pattern : String
  paths : Option (List RPath)
  fileTypes : Option (List String)
  contextLines : Nat
  caseSensitive : Bool
  wholeWords : Bool
  maxResults : Option Nat
deriving Repr, DecidableEq

/-- The `results` sub-dictionary of a successful `search_pattern_impl` call
(`search_time` is wall-clock noise and is not modelled). -/
structure SearchResults where
  totalMatches : Nat
  matchList : List RgMatch
deriving Repr, DecidableEq

/-- The dictionary returned by `search_pattern_impl`, instrumented with `ranRg`
recording whether `_run_ripgrep_command` was invoked. -/
structure SearchOutcome where
  query : SearchQuery
  results : Option SearchResults
  error : Option PyErr
  ranRg : Bool
deriving Repr, DecidableEq

/-- The effective result limit of `search_pattern_impl`:
`min(max_results or config_max, config_max)` with Python falsiness of `0`/`None`. -/
def effectiveMaxResults (cfg : RgConfig) (maxResults : Option Nat) : Nat :=
  min (match maxResults with
        | some k => if k = 0 then cfg.maxResults else k
        | none => cfg.maxResults)
      cfg.maxResults

/-- `search_pattern_impl`.  The subprocess call plus `_parse_ripgrep_json_output`
is the oracle `run`, mapping the built command to parsed matches or an exception;
every other step is translated from the source.  The broad `except` handler at
the end of the Python function becomes the error branches building an
error-flagged outcome. -/
def searchPatternImpl (cfg : RgConfig) (run : List String → Except PyErr (List RgMatch))
    (pattern : String) (paths : Option (List RPath)) (fileTypes : Option (List String))
    (contextLines : Nat) (caseSensitive wholeWords : Bool) (maxResults : Option Nat) :
    SearchOutcome :=
  let errQuery : SearchQuery :=
    { pattern := pattern, paths := paths, fileTypes := fileTypes,
      contextLines := contextLines, caseSensitive := caseSensitive,
      wholeWords := wholeWords, maxResults := none }
  let errOut : PyErr → Bool → SearchOutcome := fun e ran =>
    { query := errQuery, results := none, error := some e, ranRg := ran }
  if pyStrip pattern = "" then errOut (.valueError "Search pattern cannot be empty") false
  else
    match shouldBlockPattern cfg pattern with
    | .error e => errOut e false
    | .ok true => errOut (.valueError "Search pattern contains blocked content") false
    | .ok false =>
      match validatePaths cfg paths with
      | .error e => errOut e false
      | .ok validatedPaths =>
        let effectiveMax := effectiveMaxResults cfg maxResults
        let cmd := buildRipgrepCommand cfg pattern validatedPaths fileTypes contextLines
          caseSensitive wholeWords false (some effectiveMax)
        match run cmd with
        | .error e => errOut e true
        | .ok matches0 =>
          let ms := if matches0.length > effectiveMax then matches0.take effectiveMax
            else matches0
          { query :=
              { pattern := pattern, paths := some validatedPaths, fileTypes := fileTypes,
                contextLines := contextLines, caseSensitive := caseSensitive,
                wholeWords := wholeWords, maxResults := some effectiveMax },
            results := some { totalMatches := ms.length, matchList := ms },
            error := none,
            ranRg := true }

/-- The keys of the `symbol_patterns` dictionary in `find_symbol_impl`. -/
def validSymbolTypes : List String := ["function", "class", "variable", "any"]

/-- The regex list `symbol_patterns[symbol_type]` of `find_symbol_impl` (the
f-strings expanded). -/
def symbolPatterns (symbol : String) (symbolType : String) : List String :=
  if symbolType = "function" then
    ["def\\s+" ++ symbol ++ "\\s*\\(",
     "function\\s+" ++ symbol ++ "\\s*\\(",
     "fn\\s+" ++ symbol ++ "\\s*\\(",
     symbol ++ "\\s*:\\s*function"]
  else if symbolType = "class" then
    ["class\\s+" ++ symbol ++ "\\s*[:\\(]",
     "struct\\s+" ++ symbol ++ "\\s*\\\x7b",
     "interface\\s+" ++ symbol ++ "\\s*\\\x7b"]
  else if symbolType = "variable" then
    ["let\\s+" ++ symbol ++ "\\s*=",
     "var\\s+" ++ symbol ++ "\\s*=",
     "const\\s+" ++ symbol ++ "\\s*=",
     symbol ++ "\\s*=\\s*"]
  else
    ["\\b" ++ symbol ++ "\\b"]

/-- A match record of `find_symbol_impl` after `match.update(...)`. -/
structure SymbolMatch where
  file : String
  line : Option Nat
  column : Nat
  content : String
  symbolName : String
  symbolType : String
  definition : String
  scope : String
deriving Repr, DecidableEq

/-- The per-pattern search loop of `find_symbol_impl`. -/
def findSymbolLoop (cfg : RgConfig) (run : List String → Except PyErr (List RgMatch))
    (symbol symbolType : String) (exactMatch : Bool) (validatedPaths : List RPath) :
    List String → Except PyErr (List SymbolMatch)
  | [] => .ok []
  | p :: rest =>
    match run (buildRipgrepCommand cfg p validatedPaths none 0 exactMatch false false
        (some cfg.maxResults)) with
    | .error e => .error e
    | .ok ms =>
      match findSymbolLoop cfg run symbol symbolType exactMatch validatedPaths rest with
      | .error e => .error e
      | .ok restMs =>
        .ok (ms.map (fun m =>
          { file := m.file, line := m.line, column := m.column, content := m.content,
            symbolName := symbol, symbolType := symbolType,
            definition := m.content, scope := "unknown" }) ++ restMs)

/-- The duplicate-removal pass of `find_symbol_impl`, keyed on `(file, line)`. -/
def dedupFileLine : List SymbolMatch → List (String × Option Nat) → List SymbolMatch
  | [], _ => []
  | m :: rest, seen =>
    if (m.file, m.line) ∈ seen then dedupFileLine rest seen
    else m :: dedupFileLine rest ((m.file, m.line) :: seen)

/-- The dictionary returned by `find_symbol_impl`. -/
structure FindSymbolOutcome where
  querySymbol : String
  querySymbolType : String
  queryPaths : Option (List RPath)
  queryExactMatch : Bool
  results : Option (Nat × List SymbolMatch)
  error : Option PyErr
deriving Repr, DecidableEq

/-- `find_symbol_impl`, with the subprocess plus JSON parse as the oracle `run`. -/
def findSymbolImpl (cfg : RgConfig) (run : List String → Except PyErr (List RgMatch))
    (symbol symbolType : String) (paths : Option (List RPath)) (exactMatch : Bool) :
    FindSymbolOutcome :=
  let errOut : String → PyErr → FindSymbolOutcome := fun st e =>
    { querySymbol := symbol, querySymbolType := st, queryPaths := paths,
      queryExactMatch := exactMatch, results := none, error := some e }
  if pyStrip symbol = "" then errOut symbolType (.valueError "Symbol name cannot be empty")
  else
    let st := if symbolType ∈ validSymbolTypes then symbolType else "any"
    match validatePaths cfg paths with
    | .error e => errOut st e
    | .ok vp =>
      match findSymbolLoop cfg run symbol st exactMatch vp (symbolPatterns symbol st) with
      | .error e => errOut st e
      | .ok allMatches =>
        let uniq := dedupFileLine allMatches []
        { querySymbol := symbol, querySymbolType := st, queryPaths := some vp,
          queryExactMatch := exactMatch, results := some (uniq.length, uniq), error := none }

/-- Last component of a path string (`os.path.basename` / `Path(p).name`). -/
def fileName (p : String) : String := (p.splitOn "/").getLastD ""

/-- Index of the last dot of a character list, if any. -/
def lastDotIdx (cs : List Char) : Option Nat :=
  ((List.range cs.length).filter (fun i => cs.get? i = some '.')).getLast?

/-- `Path(name).suffix`: nonempty only when the last dot is neither the first nor
the last character of the name. -/
def fileSuffix (nm : String) : String :=
  let cs := nm.data
  match lastDotIdx cs with
  | none => ""
  | some i => if 0 < i ∧ i < cs.length - 1 then ⟨cs.drop i⟩ else ""

/-- `path_obj.suffix.lstrip('.') or 'no_extension'`. -/
def fileTypeOf (path : String) : String :=
  let s := lstripDots (fileSuffix (fileName path))
  if s = "" then "no_extension" else s

/-- A `file_info` dictionary of `search_files_impl`; `size`/`fileType` are absent
when stats are disabled, the file is missing, or `os.stat` raised. -/
structure FileInfo where
  path : String
  size : Option Nat
  fileType : Option String
deriving Repr, DecidableEq

/-- Build one `file_info` record; `statOf` is the `Path.exists`/`os.stat` oracle
(`none` models a missing file or a raised exception, both leaving bare `path`). -/
def mkFileInfo (statOf : String → Option Nat) (includeStats : Bool) (path : String) : FileInfo :=
  if includeStats then
    match statOf path with
    | some sz => { path := path, size := some sz, fileType := some (fileTypeOf path) }
    | none => { path := path, size := none, fileType := none }
  else { path := path, size := none, fileType := none }

/-- The `--max-filesize` arguments of the name branch of `search_files_impl`
(`max_size or config`, with empty strings falsy). -/
def sizeLimitArgs (cfg : RgConfig) (maxSize : Option String) : List String :=
  let t : Option String := match maxSize with
    | some s => if s = "" then none else some s
    | none => none
  match t with
  | some s => ["--max-filesize", s]
  | none => if cfg.maxFilesize ≠ "" then ["--max-filesize", cfg.maxFilesize] else []

/-- The content-branch accumulation of `search_files_impl`: append a record for
each matched file path not already present (compared on `path`). -/
def addContentFiles (statOf : String → Option Nat) (includeStats : Bool)
    (acc : List FileInfo) : List String → List FileInfo
  | [] => acc
  | p :: rest =>
    if acc.any (fun r => r.path = p) then addContentFiles statOf includeStats acc rest
    else addContentFiles statOf includeStats (acc ++ [mkFileInfo statOf includeStats p]) rest

/-- The dictionary returned by `search_files_impl`. -/
structure SearchFilesOutcome where
  queryNamePattern : Option String
  queryContentPattern : Option String
  queryPaths : Option (List RPath)
  queryMaxSize : Option String
  queryIncludeStats : Bool
  results : Option (Nat × List FileInfo)
  error : Option PyErr
deriving Repr, DecidableEq

/-- `search_files_impl`.  `runList` is the `rg --files` subprocess returning raw
stdout lines; `runContent` is the files-with-matches subprocess plus the
per-line JSON decode, returning matched file paths. -/
def searchFilesImpl (cfg : RgConfig)
    (runList runContent : List String → Except PyErr (List String))
    (statOf : String → Option Nat)
    (namePattern contentPattern : Option String) (paths : Option (List RPath))
    (maxSize : Option String) (includeStats : Bool) : SearchFilesOutcome :=
  let errOut : PyErr → SearchFilesOutcome := fun e =>
    { queryNamePattern := namePattern, queryContentPattern := contentPattern,
      queryPaths := paths, queryMaxSize := maxSize, queryIncludeStats := includeStats,
      results := none, error := some e }
  let nameT : Option String := match namePattern with
    | some s => if s = "" then none else some s
    | none => none
  let contentT : Option String := match contentPattern with
    | some s => if s = "" then none else some s
    | none => none
  if nameT = none ∧ contentT = none then
    errOut (.valueError "Either name_pattern or content_pattern must be provided")
  else
    match validatePaths cfg paths with
    | .error e => errOut e
    | .ok vp =>
      let step1 : Except PyErr (List FileInfo) :=
        match nameT with
        | none => .ok []
        | some np =>
          let cmd := ["rg", "--files", "--glob", np] ++ sizeLimitArgs cfg maxSize
            ++ cfg.blockedPatterns.flatMap (fun b => ["--glob", "!" ++ b]) ++ vp.map renderPath
          match runList cmd with
          | .error e => .error e
          | .ok lines =>
            .ok ((lines.filter (fun l => l ≠ "")).map
              (fun l => mkFileInfo statOf includeStats (pyStrip l)))
      match step1 with
      | .error e => errOut e
      | .ok results1 =>
        let step2 : Except PyErr (List FileInfo) :=
          match contentT with
          | none => .ok results1
          | some cp =>
            let cmd := buildRipgrepCommand cfg cp vp none 0 false false true
              (some cfg.maxResults)
            match runContent cmd with
            | .error e => .error e
            | .ok files => .ok (addContentFiles statOf includeStats results1 files)
        match step2 with
        | .error e => errOut e
        | .ok results2 =>
          let results3 := if results2.length > cfg.maxResults then results2.take cfg.maxResults
            else results2
          { queryNamePattern := namePattern, queryContentPattern := contentPattern,
            queryPaths := some vp, queryMaxSize := maxSize, queryIncludeStats := includeStats,
            results := some (results3.length, results3), error := none }

/-- Python `str.rstrip()`. -/
def rstrip (s : String) : String :=
  ⟨(s.data.reverse.dropWhile Char.isWhitespace).reverse⟩

/-- The f-string `f"{i:4d}"`: the decimal form right-justified to width 4. -/
def fmtLineNum (i : Nat) : String :=
  let s := toString i
  ⟨List.replicate (4 - s.length) ' '⟩ ++ s

/-- The `result` dictionary of a successful `get_file_context_impl` call. -/
structure ContextResult where
  file : String
  targetLine : Nat
  content : String
  beforeContext : List String
  afterContext : List String
  totalContextLines : Nat
  fileTotalLines : Nat
deriving Repr, DecidableEq

/-- The dictionary returned by `get_file_context_impl`. -/
structure ContextOutcome where
  queryFilePath : RPath
  queryLineNumber : Int
  queryContextLines : Nat
  queryIncludeLineNumbers : Bool
  result : Option ContextResult
  error : Option PyErr
deriving Repr, DecidableEq

/-- `get_file_context_impl`; `readLines` is the `open`/`readlines` oracle. -/
def getFileContextImpl (cfg : RgConfig)
    (readLines : String → Except PyErr (List String))
    (filePath : RPath) (lineNumber : Int) (contextLines : Nat)
    (includeLineNumbers : Bool) : ContextOutcome :=
  let errOut : PyErr → ContextOutcome := fun e =>
    { queryFilePath := filePath, queryLineNumber := lineNumber,
      queryContextLines := contextLines, queryIncludeLineNumbers := includeLineNumbers,
      result := none, error := some e }
  if lineNumber < 1 then errOut (.valueError "Line number must be >= 1")
  else
    match validatePaths cfg (some [filePath]) with
    | .error e => errOut e
    | .ok vp =>
      let actual := renderPath (vp.getD 0 [])
      let readOutcome : Except PyErr (List String) :=
        match readLines actual with
        | .ok ls => .ok ls
        | .error (.fileNotFoundError _) =>
          .error (.fileNotFoundError ("File not found: " ++ renderPath filePath))
        | .error e => .error (.runtimeError ("Failed to read file: " ++ e.message))
      match readOutcome with
      | .error e => errOut e
      | .ok lines =>
        let total := lines.length
        let n := lineNumber.toNat
        if total < n then errOut (.valueError "Line number exceeds file length")
        else
          let startL := max 1 (n - contextLines)
          let endL := min total (n + contextLines)
          let target := rstrip (lines.getD (n - 1) "")
          let fmt : Nat → String → String := fun i content =>
            if includeLineNumbers then fmtLineNum (i + 1) ++ ": " ++ content else content
          let before := (List.range' (startL - 1) (n - 1 - (startL - 1))).map
            (fun i => fmt i (rstrip (lines.getD i "")))
          let after := (List.range' n (min endL total - n)).map
            (fun i => fmt i (rstrip (lines.getD i "")))
          { queryFilePath := filePath, queryLineNumber := lineNumber,
            queryContextLines := contextLines, queryIncludeLineNumbers := includeLineNumbers,
            result := some
              { file := actual, targetLine := n, content := target,
                beforeContext := before, afterContext := after,
                totalContextLines := before.length + 1 + after.length,
                fileTotalLines := total },
            error := none }

/-- `_detect_language`. -/
def detectLanguage (ext : String) : String :=
  match pyLower ext with
  | "py" => "Python"
  | "js" => "JavaScript"
  | "ts" => "TypeScript"
  | "java" => "Java"
  | "cpp" => "C++"
  | "c" => "C"
  | "h" => "C/C++"
  | "rs" => "Rust"
  | "go" => "Go"
  | "php" => "PHP"
  | "rb" => "Ruby"
  | "swift" => "Swift"
  | "kt" => "Kotlin"
  | "cs" => "C#"
  | "html" => "HTML"
  | "css" => "CSS"
  | "scss" => "SCSS"
  | "json" => "JSON"
  | "xml" => "XML"
  | "yaml" => "YAML"
  | "yml" => "YAML"
  | "md" => "Markdown"
  | "sql" => "SQL"
  | "sh" => "Shell"
  | "bash" => "Shell"
  | "ps1" => "PowerShell"
  | _ => "Other"

/-- `str(Path(p).parent)`. -/
def parentDir (p : String) : String :=
  let parts := (p.splitOn "/").dropLast
  if parts = [] then "."
  else if parts = [""] then "/"
  else String.intercalate "/" parts

/-- Python dict counter update `m[k] = f(m.get(k, init))`, appending new keys. -/
def dbump {α : Type} (m : List (String × α)) (k : String) (init : α) (f : α → α) :
    List (String × α) :=
  dinsert m k (f ((dlookup m k).getD init))

/-- One `language_stats` entry of `analyze_codebase_impl`. -/
structure LangStat where
  files : Nat
  size : Nat
  lines : Nat
deriving Repr, DecidableEq

/-- One `largest_files` entry of `analyze_codebase_impl`. -/
structure LargeFile where
  path : String
  size : Nat
  lines : Nat
deriving Repr, DecidableEq

/-- One `directory_breakdown` entry of `_analyze_directory_structure`. -/
structure DirStat where
  files : Nat
  totalSize : Nat
deriving Repr, DecidableEq

/-- The mutable loop state of `analyze_codebase_impl`; `lastLineCount` models the
Python local `line_count`, which survives across loop iterations and is re-used
by the `'line_count' in locals()` guard after a failed `open`. -/
structure AnalyzeAcc where
  fileTypesCount : List (String × Nat)
  languageStats : List (String × LangStat)
  totalSize : Nat
  totalLines : Nat
  largestFiles : List LargeFile
  lastLineCount : Option Nat
deriving Repr, DecidableEq

/-- The body of the per-file loop of `analyze_codebase_impl`.  `statOf` combines
`Path.exists` and `os.stat` (`none`: skipped via `continue`); `lineCountOf` is
the `open`-and-count step (`none`: the inner `except` passed). -/
def analyzeStep (statOf lineCountOf : String → Option Nat)
    (includeMetrics includeLangStats : Bool) (acc : AnalyzeAcc) (filePath : String) :
    AnalyzeAcc :=
  match statOf filePath with
  | none => acc
  | some fileSize =>
    let acc := { acc with totalSize := acc.totalSize + fileSize }
    let ext := fileTypeOf filePath
    let acc := { acc with fileTypesCount := dbump acc.fileTypesCount ext 0 (· + 1) }
    let acc :=
      if includeMetrics then
        match lineCountOf filePath with
        | some lc =>
          { acc with
            totalLines := acc.totalLines + lc,
            largestFiles := acc.largestFiles ++
              [{ path := filePath, size := fileSize, lines := lc }],
            lastLineCount := some lc }
        | none => acc
      else acc
    if includeLangStats then
      let language := detectLanguage ext
      let addLines := if includeMetrics then acc.lastLineCount.getD 0 else 0
      { acc with
        languageStats :=
          dbump acc.languageStats language ⟨0, 0, 0⟩
            (fun s =>
              { files := s.files + 1, size := s.size + fileSize,
                lines := s.lines + addLines }) }
    else acc

/-- `largest_files.sort(key=size, reverse=True)`: stable descending sort. -/
def sortLargest (l : List LargeFile) : List LargeFile :=
  l.mergeSort (fun a b => decide (b.size ≤ a.size))

/-- `_analyze_directory_structure`. -/
def analyzeDirectoryStructure (statOf : String → Option Nat) (files : List String) :
    List (String × DirStat) :=
  files.foldl (fun dirs f =>
    let d := parentDir f
    let dirs := dbump dirs d ⟨0, 0⟩ (fun s => { s with files := s.files + 1 })
    match statOf f with
    | some sz => dbump dirs d ⟨0, 0⟩ (fun s => { s with totalSize := s.totalSize + sz })
    | none => dirs) []

/-- The `results` dictionary of a successful `analyze_codebase_impl` call. -/
structure AnalyzeResults where
  totalFiles : Nat
  totalSize : Nat
  totalLines : Option Nat
  fileTypes : List (String × Nat)
  largestFiles : List LargeFile
  languageStats : List (String × LangStat)
  directoryBreakdown : List (String × DirStat)
deriving Repr, DecidableEq

/-- The dictionary returned by `analyze_codebase_impl`. -/
structure AnalyzeOutcome where
  queryPaths : Option (List RPath)
  queryIncludeMetrics : Bool
  queryFileTypes : Option (List String)
  queryIncludeLanguageStats : Bool
  queryMaxFilesToScan : Nat
  results : Option AnalyzeResults
  error : Option PyErr
deriving Repr, DecidableEq

/-- `analyze_codebase_impl`; `runFiles` is the `rg --files` subprocess oracle. -/
def analyzeCodebaseImpl (cfg : RgConfig)
    (runFiles : List String → Except PyErr (List String))
    (statOf lineCountOf : String → Option Nat)
    (paths : Option (List RPath)) (includeMetrics : Bool)
    (fileTypes : Option (List String)) (includeLanguageStats : Bool)
    (maxFilesToScan : Nat) : AnalyzeOutcome :=
  let errOut : PyErr → AnalyzeOutcome := fun e =>
    { queryPaths := paths, queryIncludeMetrics := includeMetrics,
      queryFileTypes := fileTypes, queryIncludeLanguageStats := includeLanguageStats,
      queryMaxFilesToScan := maxFilesToScan, results := none, error := some e }
  match validatePaths cfg paths with
  | .error e => errOut e
  | .ok vp =>
    let cmd := ["rg", "--files"]
      ++ (match fileTypes with
          | some fts => fts.flatMap (fun ft => ["-t", lstripDots ft])
          | none => [])
      ++ cfg.blockedPatterns.flatMap (fun b => ["--glob", "!" ++ b])
      ++ vp.map renderPath
    match runFiles cmd with
    | .error e => errOut e
    | .ok rawLines =>
      let allFiles0 := (rawLines.filter (fun l => l ≠ "")).map (fun l => pyStrip l)
      let allFiles := if allFiles0.length > maxFilesToScan then allFiles0.take maxFilesToScan
        else allFiles0
      let acc := allFiles.foldl
        (analyzeStep statOf lineCountOf includeMetrics includeLanguageStats)
        ⟨[], [], 0, 0, [], none⟩
      let largest := (sortLargest acc.largestFiles).take 10
      { queryPaths := some vp, queryIncludeMetrics := includeMetrics,
        queryFileTypes := fileTypes, queryIncludeLanguageStats := includeLanguageStats,
        queryMaxFilesToScan := maxFilesToScan,
        results := some
          { totalFiles := allFiles.length, totalSize := acc.totalSize,
            totalLines := if includeMetrics then some acc.totalLines else none,
            fileTypes := acc.fileTypesCount,
            largestFiles := if includeMetrics then largest else [],
            languageStats := if includeLanguageStats then acc.languageStats else [],
            directoryBreakdown := analyzeDirectoryStructure statOf allFiles },
        error := none }

/-! ## Repository cloner (`github_browser/repo_cloner.py`)

Times (`datetime.now`, `time.time`, `st_mtime`) are modelled as integer seconds;
directory sizes in MB are modelled as rationals (`total_size / (1024*1024)`). -/

/-- The `CloneInfo` dataclass. -/
structure CloneInfo where
  repoName : String
  org : Option String
  branch : String
  clonePath : String
  cloneTime : Int
  cloneUrl : String
  fullName : String
  withSubmodules : Bool
deriving Repr, DecidableEq

/-- A completed `subprocess.run` result. -/
structure ProcResult where
  returncode : Int
  stdout : String
  stderr : String
deriving Repr, DecidableEq

/-- The constructor-time configuration of `RepositoryCloner`. -/
structure ClonerConfig where
  githubTempDir : String
  autoCleanupHours : Int
  maxCloneSizeMb : ℚ
deriving Repr, DecidableEq

/-- External-world oracles used by `clone_repository`: filesystem existence,
the `git clone` and `git submodule update` subprocesses (an `Except.error`
models `TimeoutExpired` or any other raised exception), the `git branch
--show-current` subprocess, directory size, and the two clocks. -/
structure CloneEnv where
  pathExists : String → Bool
  gitClone : List String → Except PyErr ProcResult
  submoduleUpdate : List String → Except PyErr ProcResult
  gitBranchCmd : String → Except PyErr ProcResult
  dirSizeMb : String → ℚ
  timestamp : Int
  now : Int

/-- `f"{org}/{repo_name}" if org else repo_name` (empty strings are falsy). -/
def fullRepoName (repoName : String) (org : Option String) : String :=
  match org with
  | some o => if o = "" then repoName else o ++ "/" ++ repoName
  | none => repoName

/-- The cache key `f"{full_name}#{branch or 'default'}{'#submodules' if ...}"`. -/
def cloneKey (fullName : String) (branch : Option String) (recurseSubmodules : Bool) : String :=
  fullName ++ "#" ++
    (match branch with
     | some b => if b = "" then "default" else b
     | none => "default") ++
    (if recurseSubmodules then "#submodules" else "")

/-- `_get_default_branch`: `git branch --show-current`, falling back to "main". -/
def getDefaultBranch (env : CloneEnv) (clonePath : String) : String :=
  match env.gitBranchCmd clonePath with
  | .ok r => if r.returncode = 0 then pyStrip r.stdout else "main"
  | .error _ => "main"

/-- Result of one `clone_repository` call: the returned `Optional[CloneInfo]`,
the updated `active_clones` dictionary, and an instrumentation flag recording
whether the `git clone` subprocess was started. -/
structure CloneOutcome where
  result : Option CloneInfo
  clones : List (String × CloneInfo)
  ranGit : Bool
deriving Repr

/-- The fresh-clone part of `clone_repository` (source lines 111-208): build the
URL and the unique directory, run `git clone`, optionally update submodules
(result and errors discarded, per the inner `try`), enforce the size limit,
and register the `CloneInfo` in `active_clones`.  Exceptions from the
subprocess oracles land in the broad `except` handlers, which return `None`
while keeping the dictionary as it stands. -/
def doClone (cfg : ClonerConfig) (env : CloneEnv) (clones : List (String × CloneInfo))
    (key fullName repoName : String) (org branch authToken : Option String)
    (depth : Option Nat) (recurseSubmodules : Bool) : CloneOutcome :=
  let cloneUrl := match authToken with
    | some t =>
      if t = "" then "https://github.com/" ++ fullName ++ ".git"
      else "https://" ++ t ++ "@github.com/" ++ fullName ++ ".git"
    | none => "https://github.com/" ++ fullName ++ ".git"
  let safeName := pyReplaceChar (pyReplaceChar fullName '/' '_') '.' '_'
  let cloneDirName := safeName ++ (if recurseSubmodules then "_submodules" else "") ++
    "_" ++ toString env.timestamp
  let clonePath := cfg.githubTempDir ++ "/" ++ cloneDirName
  let depthTruthy : Bool := match depth with
    | some d => d != 0
    | none => false
  let cmd := ["git", "clone"] ++
    (match depth with
     | some d => if d ≠ 0 then ["--depth", toString d] else []
     | none => []) ++
    (match branch with
     | some b => if b ≠ "" then ["--branch", b] else []
     | none => []) ++
    (if recurseSubmodules then
      ["--recurse-submodules"] ++ (if depthTruthy then ["--shallow-submodules"] else [])
     else []) ++
    [cloneUrl, clonePath]
  match env.gitClone cmd with
  | .error _ => { result := none, clones := clones, ranGit := true }
  | .ok r =>
    if r.returncode ≠ 0 then { result := none, clones := clones, ranGit := true }
    else
      let submoduleCmd := ["git", "submodule", "update", "--init", "--recursive"] ++
        (match depth with
         | some d => if d ≠ 0 then ["--depth", toString d] else []
         | none => [])
      let _ := if recurseSubmodules ∧ env.pathExists clonePath then
        env.submoduleUpdate submoduleCmd else .ok ⟨0, "", ""⟩
      let cloneSizeMb := env.dirSizeMb clonePath
      if cloneSizeMb > cfg.maxCloneSizeMb then
        { result := none, clones := clones, ranGit := true }
      else
        let info : CloneInfo :=
          { repoName := repoName, org := org,
            branch := match branch with
              | some b => if b = "" then getDefaultBranch env clonePath else b
              | none => getDefaultBranch env clonePath,
            clonePath := clonePath, cloneTime := env.now, cloneUrl := cloneUrl,
            fullName := fullName, withSubmodules := recurseSubmodules }
        { result := some info, clones := dinsert clones key info, ranGit := true }

/-- `RepositoryCloner.clone_repository`.  The cache check of source lines
96-109: a hit whose path still exists is returned as-is with no subprocess; a
hit whose path is gone is deleted from `active_clones` before a fresh clone. -/
def cloneRepository (cfg : ClonerConfig) (env : CloneEnv)
    (clones : List (String × CloneInfo)) (repoName : String)
    (org branch authToken : Option String) (depth : Option Nat)
    (recurseSubmodules forceReclone : Bool) : CloneOutcome :=
  let fullName := fullRepoName repoName org
  let key := cloneKey fullName branch recurseSubmodules
  match forceReclone, dlookup clones key with
  | false, some cloneInfo =>
    if env.pathExists cloneInfo.clonePath then
      { result := some cloneInfo, clones := clones, ranGit := false }
    else
      doClone cfg env (derase clones key) key fullName repoName org branch authToken
        depth recurseSubmodules
  | true, _ =>
    doClone cfg env clones key fullName repoName org branch authToken depth
      recurseSubmodules
  | false, none =>
    doClone cfg env clones key fullName repoName org branch authToken depth
      recurseSubmodules

/-- A filesystem subtree under a clone directory. -/
inductive FsEntry where
  | file (name : String)
  | dir (name : String) (children : List FsEntry)

mutual
/-- `os.walk` on one entry: files are collected with their relative path;
directories named `.git` are pruned (the `dirs.remove('.git')` in the loop). -/
def walkEntry (pre : List String) : FsEntry → List (List String)
  | .file n => [pre ++ [n]]
  | .dir n cs => if n = ".git" then [] else walkEntries (pre ++ [n]) cs

/-- `os.walk` over a list of entries. -/
def walkEntries (pre : List String) : List FsEntry → List (List String)
  | [] => []
  | e :: es => walkEntry pre e ++ walkEntries pre es
end

/-- The duplicate-removal pass of `get_files_from_clone`, keyed on the relative
path. -/
def dedupPaths : List (List String) → List (List String) → List (List String)
  | [], _ => []
  | p :: rest, seen =>
    if p ∈ seen then dedupPaths rest seen
    else p :: dedupPaths rest (p :: seen)

/-- One `file_info` dictionary produced by `get_files_from_clone`. -/
structure CloneFileInfo where
  path : List String
  name : String
  size : Nat
  modifiedTime : Int
  content : Option String
  isBinary : Bool
  contentError : Option String
deriving Repr, DecidableEq

/-- External-world oracles of `get_files_from_clone`: whether the clone path
still exists, the `os.walk` traversal (an `Except.error` models any exception
reaching the outer broad handler), the `fnmatch.fnmatch` glob test, per-file
`os.stat` (`none`: the per-file exception was logged and the file skipped), and
the file read (`unicodeDecodeError` marks a binary file). -/
structure FilesEnv where
  cloneExists : Bool
  tree : Except PyErr (List FsEntry)
  fnmatch : List String → String → Bool
  statOf : List String → Option (Nat × Int)
  readFile : List String → Except PyErr String

/-- Build one `file_info` record of `get_files_from_clone`. -/
def mkCloneFileInfo (env : FilesEnv) (includeContent : Bool) (relPath : List String)
    (size : Nat) (mtime : Int) : CloneFileInfo :=
  let base : CloneFileInfo :=
    { path := relPath, name := relPath.getLastD "", size := size, modifiedTime := mtime,
      content := none, isBinary := false, contentError := none }
  if includeContent then
    match env.readFile relPath with
    | .ok text => { base with content := some text }
    | .error (.unicodeDecodeError _) => { base with content := none, isBinary := true }
    | .error e => { base with content := none, contentError := some e.message }
  else base

/-- `RepositoryCloner.get_files_from_clone`: walk the clone, match every glob
pattern against every relative path, de-duplicate on the relative path, and
build the per-file records; every failure branch returns `[]`. -/
def getFilesFromClone (env : FilesEnv) (filePatterns : List String)
    (includeContent : Bool) : List CloneFileInfo :=
  if ¬env.cloneExists then []
  else
    match env.tree with
    | .error _ => []
    | .ok entries =>
      let allFiles := walkEntries [] entries
      let matched := filePatterns.flatMap
        (fun pat => allFiles.filter (fun rp => env.fnmatch rp pat))
      let uniq := dedupPaths matched []
      uniq.filterMap (fun rp =>
        match env.statOf rp with
        | none => none
        | some (size, mtime) => some (mkCloneFileInfo env includeContent rp size mtime))

/-- One entry of `os.listdir` on the clone base directory: its name, whether it
is a directory, and its `st_mtime` (`none`: `os.stat` raised, so the sweep
`continue`s and the entry is kept). -/
structure DirEntry where
  name : String
  isDir : Bool
  stat : Option Int
deriving Repr, DecidableEq

/-- Whether the orphan sweep of `_cleanup_old_clones` deletes this entry:
directories whose modification time is strictly before the cutoff. -/
def orphanDeleted (cutoff : Int) (e : DirEntry) : Bool :=
  e.isDir && (match e.stat with
    | some m => decide (m < cutoff)
    | none => false)

/-- The orphaned-directory sweep of `_cleanup_old_clones`: the entries kept and
the entries removed by `shutil.rmtree`. -/
def sweepOrphans (cutoff : Int) (entries : List DirEntry) : List DirEntry × List DirEntry :=
  (entries.filter (fun e => ¬orphanDeleted cutoff e), entries.filter (orphanDeleted cutoff))

/-- `_cleanup_old_clones`: drop tracked clones older than the cutoff from
`active_clones`, then sweep the clone base directory (given as the `os.listdir`
snapshot at sweep time).  `cutoff = now - hours * 3600` seconds, from
`datetime.now() - timedelta(hours=auto_cleanup_hours)`. -/
def cleanupOldClones (now hours : Int) (clones : List (String × CloneInfo))
    (entries : List DirEntry) :
    List (String × CloneInfo) × List DirEntry × List DirEntry :=
  let cutoff := now - hours * 3600
  let toRemove := (clones.filter (fun kv => decide (kv.2.cloneTime < cutoff))).map (·.1)
  let clones2 := toRemove.foldl (fun m k => derase m k) clones
  (clones2, sweepOrphans cutoff entries)

/-- `RepositoryCloner.__init__`: `active_clones` starts empty and
`_cleanup_old_clones` runs immediately; only the orphan sweep can act. -/
def clonerInit (now hours : Int) (entries : List DirEntry) :
    List (String × CloneInfo) × List DirEntry × List DirEntry :=
  cleanupOldClones now hours [] entries

/-! ## Webhook notifiers (`discord_notifier/notifier.py`, `slack_notifier/notifier.py`) -/

/-- A `requests` response, as far as the notifiers look at it. -/
structure HttpResponse where
  statusCode : Nat
  text : String
deriving Repr, DecidableEq

/-- The environment variables read by the Discord notifier. -/
structure DiscordEnv where
  enabled : Option String
  webhookUrl : Option String
  botName : Option String
deriving Repr, DecidableEq

/-- The embed dictionary built by `send_discord_notification`. -/
structure DiscordEmbed where
  title : String
  description : String
  color : Nat
deriving Repr, DecidableEq

/-- The JSON payload posted to the Discord webhook. -/
structure DiscordPayload where
  username : String
  embeds : List DiscordEmbed
deriving Repr, DecidableEq

/-- `send_discord_notification`; `post` is the `requests.post` oracle (an
`Except.error` models a connection/timeout/request exception, all of which the
handlers turn into `False`).  The `not message or not isinstance(message, str)`
guard is the emptiness test, messages being modelled as strings. -/
def sendDiscordNotification (env : DiscordEnv)
    (post : String → DiscordPayload → Except PyErr HttpResponse)
    (message title : String) (botName : Option String) : Bool :=
  if message = "" then false
  else if pyLower (env.enabled.getD "true") = "false" then false
  else
    match env.webhookUrl with
    | none => false
    | some url =>
      if url = "" then false
      else
        let name := match botName with
          | some b => b
          | none => env.botName.getD "MCP Helper"
        let payload : DiscordPayload :=
          { username := name,
            embeds := [{ title := title, description := message, color := 10181046 }] }
        match post url payload with
        | .error _ => false
        | .ok r => if r.statusCode ≠ 204 then false else true

/-- The environment variables read by the Slack notifier. -/
structure SlackEnv where
  enabled : Option String
  webhookUrl : Option String
deriving Repr, DecidableEq

/-- One Slack block of the payload built by `send_slack_notification`. -/
inductive SlackBlock where
  | header (text : String)
  | section (text : String)
deriving Repr, DecidableEq

/-- `send_slack_notification`; `post` is the `requests.post` oracle.  Success
requires HTTP 200 with body exactly `"ok"`. -/
def sendSlackNotification (env : SlackEnv)
    (post : String → List SlackBlock → Except PyErr HttpResponse)
    (message title : String) : Bool :=
  if pyLower (env.enabled.getD "true") = "false" then false
  else
    match env.webhookUrl with
    | none => false
    | some url =>
      if url = "" then false
      else
        let blocks := (if title ≠ "" then [SlackBlock.header title] else []) ++
          [SlackBlock.section message]
        match post url blocks with
        | .error _ => false
        | .ok r => if r.statusCode = 200 ∧ r.text = "ok" then true else false

/-! ## Web search (`google_websearch/search_web.py`)

The `tenacity` decorator on `_make_gemini_request` is modelled from its
configuration at the call site: `stop_after_attempt(3)`,
`retry_if_exception_type((RateLimitError, Exception))` (which retries on every
exception), `wait_exponential(multiplier=1, min=4, max=10)`, `reraise=True`. -/

/-- The exceptions `_make_gemini_request` can raise. -/
inductive GeminiErr where
  | rateLimitError (msg : String)
  | apiError (msg : String)
deriving Repr, DecidableEq

/-- The rate-limit test of `_make_gemini_request`: `str(e).lower()` contains
"rate limit", "quota" or "429". -/
def rateLimitText (s : String) : Bool :=
  containsCI s "rate limit" || containsCI s "quota" || containsCI s "429"

/-- One undecorated attempt of `_make_gemini_request`: `call` is the
`client.models.generate_content` oracle; errors whose text indicates rate
limiting are re-raised as `RateLimitError`, everything else is re-raised
unchanged. -/
def makeGeminiRequestOnce {α : Type} (call : Except String α) : Except GeminiErr α :=
  match call with
  | .ok v => .ok v
  | .error e =>
    if rateLimitText e then .error (.rateLimitError ("Rate limit exceeded: " ++ e))
    else .error (.apiError e)

/-- The wait schedule of `wait_exponential(multiplier, min, max)` before retry
number `n` (retries counted from 1): the clamped exponential
`min maxW (max minW (multiplier * 2 ^ n))`. -/
def waitExponential (multiplier minW maxW n : Nat) : Nat :=
  min maxW (max minW (multiplier * 2 ^ n))

/-- The retry loop of the `tenacity` decorator with `reraise=True`: run
attempt `i`, stop on success, retry while fuel remains, and re-raise the last
attempt's exception.  Returns the result, the number of attempts used, and the
waits slept between attempts. -/
def retryGo {α : Type} (body : Nat → Except GeminiErr α) (wait : Nat → Nat) :
    Nat → Nat → Except GeminiErr α × Nat × List Nat
  | i, 0 => (body i, i + 1, [])
  | i, fuel + 1 =>
    match body i with
    | .ok v => (.ok v, i + 1, [])
    | .error _ =>
      let r := retryGo body wait (i + 1) fuel
      (r.1, r.2.1, wait (i + 1) :: r.2.2)

/-- The decorated `_make_gemini_request`: at most 3 attempts of
`makeGeminiRequestOnce`, waiting `wait_exponential(1, 4, 10)` between attempts,
re-raising the final exception. -/
def makeGeminiRequest {α : Type} (calls : Nat → Except String α) :
    Except GeminiErr α × Nat × List Nat :=
  retryGo (fun i => makeGeminiRequestOnce (calls i)) (waitExponential 1 4 10) 0 2

/-! ## Lexy glossary (`lexy/lexy_glossary_plugin.py`)

Glossary term data is modelled as its list of definitions (the well-formed
`definitions:` shape of the YAML); confidences are rationals (`score / 100.0`).
The `rapidfuzz` scorer is third-party, so `process.extract` is an oracle
returning `(matched text, score)` pairs. -/

/-- A `Definition` of a glossary term. -/
structure TermDefinition where
  text : String
  seeAlso : List String
deriving Repr, DecidableEq

/-- A `TermResult` returned by the search strategies. -/
structure TermResult where
  term : String
  definitions : List TermDefinition
  confidence : ℚ
  matchType : String
deriving Repr, DecidableEq

/-- `GlossaryManager._build_search_indexes`: the `normalized_terms` dictionary
(lowercase to original-cased stored term) and the `all_searchable_terms` list.
Each main term maps to itself; each see-also alias maps to the main term it
belongs to. -/
def buildSearchIndexes (glossary : List (String × List TermDefinition)) :
    List (String × String) × List String :=
  glossary.foldl
    (fun acc t =>
      let acc1 := (dinsert acc.1 (pyLower t.1) t.1, acc.2 ++ [t.1])
      t.2.foldl
        (fun acc2 d =>
          d.seeAlso.foldl
            (fun acc3 sa => (dinsert acc3.1 (pyLower sa) t.1, acc3.2 ++ [sa]))
            acc2)
        acc1)
    ([], [])

/-- `GlossaryManager.get_original_term`. -/
def getOriginalTerm (normalized : List (String × String)) (t : String) : String :=
  (dlookup normalized (pyLower t)).getD t

/-- The collection loop of `FuzzySearch.search`: map each extracted match back
to its original term, de-duplicate, keep only terms actually in the glossary,
and build fuzzy `TermResult`s. -/
def fuzzyCollect (glossary : List (String × List TermDefinition))
    (normalized : List (String × String)) :
    List (String × Nat) → List String → List TermResult
  | [], _ => []
  | (txt, score) :: rest, seen =>
    let orig := getOriginalTerm normalized txt
    if orig ∈ seen then fuzzyCollect glossary normalized rest seen
    else
      let seenNext := orig :: seen
      match dlookup glossary orig with
      | some defs =>
        { term := orig, definitions := defs, confidence := (score : ℚ) / 100,
          matchType := "fuzzy" } :: fuzzyCollect glossary normalized rest seenNext
      | none => fuzzyCollect glossary normalized rest seenNext

/-- `FuzzySearch.search`; `extract` is the `rapidfuzz.process.extract` oracle,
called with limit 10 and the score cutoff, returning `(text, score)` pairs. -/
def fuzzySearch (glossary : List (String × List TermDefinition))
    (extract : String → List String → Nat → Nat → List (String × Nat))
    (query : String) (threshold : Nat) : List TermResult :=
  let idx := buildSearchIndexes glossary
  if idx.2 = [] then []
  else
    let results := fuzzyCollect glossary idx.1 (extract query idx.2 10 threshold) []
    results.mergeSort (fun a b => decide (b.confidence ≤ a.confidence))

/-- `ExactSearch.lookup`: a hit in `normalized_terms` returns the single exact
result with confidence 1.0; a miss returns the top-3 fuzzy matches at threshold
60, re-labelled as suggestions. -/
def exactLookup (glossary : List (String × List TermDefinition))
    (extract : String → List String → Nat → Nat → List (String × Nat))
    (term : String) : List TermResult :=
  let idx := buildSearchIndexes glossary
  match dlookup idx.1 (pyLower term) with
  | some originalTerm =>
    [{ term := originalTerm, definitions := (dlookup glossary originalTerm).getD [],
       confidence := 1, matchType := "exact" }]
  | none =>
    ((fuzzySearch glossary extract term 60).take 3).map
      (fun s => { s with matchType := "suggestion" })

/-! ## Theorems -/

/-- Errors raised by `validateLoop` are always `PermissionError`s. -/
theorem validateLoop_error_perm (allowed : List RPath) (ps : List RPath) (e : PyErr)
    (h : validateLoop allowed ps = .error e) : ∃ m, e = .permissionError m := by
  induction ps with
  | nil => simp [validateLoop] at h
  | cons q rest ih =>
    unfold validateLoop at h
    by_cases hq : allowed.any (fun a => isUnder q a) = true
    · rw [if_pos hq] at h
      cases hrest : validateLoop allowed rest with
      | ok vs => rw [hrest] at h; cases h
      | error e2 => rw [hrest] at h; cases h; exact ih hrest
    · rw [if_neg hq] at h
      cases h
      exact ⟨_, rfl⟩

/-- Errors raised by `_validate_paths` are `PermissionError` or `RuntimeError`. -/
theorem validatePaths_error_shape (cfg : RgConfig) (paths : Option (List RPath)) (e : PyErr)
    (h : validatePaths cfg paths = .error e) :
    (∃ m, e = .permissionError m) ∨ (∃ m, e = .runtimeError m) := by
  unfold validatePaths checkInitialized at h
  by_cases hi : cfg.initialized
  · rw [if_pos hi] at h
    cases paths with
    | none => cases h
    | some ps => exact Or.inl (validateLoop_error_perm _ _ _ h)
  · rw [if_neg hi] at h
    cases h
    exact Or.inr ⟨_, rfl⟩

/-- A path under no allowed path makes `validateLoop` raise `PermissionError`. -/
theorem validateLoop_raises (allowed : List RPath) (ps : List RPath) (p : RPath)
    (hp : p ∈ ps) (hbad : ∀ a ∈ allowed, isUnder p a = false) :
    ∃ m, validateLoop allowed ps = .error (.permissionError m) := by
  induction ps with
  | nil => cases hp
  | cons q rest ih =>
    unfold validateLoop
    by_cases hq : allowed.any (fun a => isUnder q a) = true
    · rw [if_pos hq]
      have hpq : p ≠ q := by
        intro hpq
        subst hpq
        obtain ⟨a, ha, hu⟩ := List.any_eq_true.mp hq
        rw [hbad a ha] at hu
        cases hu
      have hrest : p ∈ rest := by
        cases hp with
        | head => exact absurd rfl hpq
        | tail _ h => exact h
      obtain ⟨m, hm⟩ := ih hrest
      rw [hm]
      exact ⟨m, rfl⟩
    · rw [if_neg hq]
      exact ⟨_, rfl⟩

/-- C10: pattern blocking is active only in remote mode — for an initialized
configuration whose mode is not "remote", `_should_block_pattern` returns
`False` for every pattern; consequently `search_pattern_impl` never fails with
the "blocked content" `ValueError` (for any runner that does not itself raise
that exact exception). -/
theorem pattern_blocking_only_in_remote_mode (cfg : RgConfig)
    (hinit : cfg.initialized = true) (hmode : cfg.mode ≠ "remote") :
    (∀ pattern, shouldBlockPattern cfg pattern = .ok false) ∧
    (∀ (run : List String → Except PyErr (List RgMatch)) pattern paths fileTypes
        contextLines caseSensitive wholeWords maxResults,
      (∀ cmd e, run cmd = .error e →
        e ≠ .valueError "Search pattern contains blocked content") →
      (searchPatternImpl cfg run pattern paths fileTypes contextLines caseSensitive
          wholeWords maxResults).error ≠
        some (.valueError "Search pattern contains blocked content")) := by
  have hblock : ∀ pattern, shouldBlockPattern cfg pattern = .ok false := by
    intro pattern
    unfold shouldBlockPattern checkInitialized
    rw [hinit]
    simp [hmode]
  refine ⟨hblock, ?_⟩
  intro run pattern paths fileTypes contextLines caseSensitive wholeWords maxResults hrun
  unfold searchPatternImpl
  by_cases hp : pyStrip pattern = ""
  · rw [if_pos hp]
    intro h
    simp at h
  · rw [if_neg hp, hblock pattern]
    cases hvp : validatePaths cfg paths with
    | error e =>
      intro h
      simp at h
      rcases validatePaths_error_shape cfg paths e hvp with ⟨m, hm⟩ | ⟨m, hm⟩ <;>
        (rw [h] at hm; exact PyErr.noConfusion hm)
    | ok vp =>
      intro h
      dsimp only at h
      cases hr : run (buildRipgrepCommand cfg pattern vp fileTypes contextLines
          caseSensitive wholeWords false (some (effectiveMaxResults cfg maxResults))) with
      | error e =>
        rw [hr] at h
        simp at h
        exact hrun _ _ hr h
      | ok ms =>
        rw [hr] at h
        simp at h

/-- Witness for C10 at a concrete local-mode configuration and a pattern that
would be blocked in remote mode. -/
theorem pattern_blocking_only_in_remote_mode_witness :
    shouldBlockPattern ⟨true, "local", [], [], 100, "10M", 30⟩ ".env secret" = .ok false :=
  (pattern_blocking_only_in_remote_mode ⟨true, "local", [], [], 100, "10M", 30⟩ rfl
    (by decide)).1 ".env secret"

/-- C1: the ripgrep wrapper applies a path allowlist.  For an initialized
configuration: (i) any explicitly passed search path that does not resolve to a
location under one of the configured allowed paths makes `_validate_paths`
raise `PermissionError`; (ii) `search_pattern_impl` then returns the
error-flagged dictionary (results `None`, the `PermissionError` recorded) and
the ripgrep subprocess is never started; (iii) when the caller passes no paths,
the configured allowed paths are used as the search paths. -/
theorem ripgrep_path_allowlist (cfg : RgConfig) (hinit : cfg.initialized = true) :
    (∀ ps p, p ∈ ps → (∀ a ∈ cfg.allowedPaths, isUnder p a = false) →
      ∃ m, validatePaths cfg (some ps) = .error (.permissionError m)) ∧
    (∀ (run : List String → Except PyErr (List RgMatch)) pattern ps p fileTypes
        contextLines caseSensitive wholeWords maxResults,
      pyStrip pattern ≠ "" →
      shouldBlockPattern cfg pattern = .ok false →
      p ∈ ps → (∀ a ∈ cfg.allowedPaths, isUnder p a = false) →
      ∃ m, searchPatternImpl cfg run pattern (some ps) fileTypes contextLines
          caseSensitive wholeWords maxResults =
        { query := { pattern := pattern, paths := some ps, fileTypes := fileTypes,
                     contextLines := contextLines, caseSensitive := caseSensitive,
                     wholeWords := wholeWords, maxResults := none },
          results := none, error := some (.permissionError m), ranRg := false }) ∧
    validatePaths cfg none = .ok cfg.allowedPaths := by
  have part1 : ∀ ps p, p ∈ ps → (∀ a ∈ cfg.allowedPaths, isUnder p a = false) →
      ∃ m, validatePaths cfg (some ps) = .error (.permissionError m) := by
    intro ps p hp hbad
    obtain ⟨m, hm⟩ := validateLoop_raises cfg.allowedPaths ps p hp hbad
    refine ⟨m, ?_⟩
    unfold validatePaths checkInitialized
    rw [hinit]
    simpa using hm
  refine ⟨part1, ?_, ?_⟩
  · intro run pattern ps p fileTypes contextLines caseSensitive wholeWords maxResults
      hpat hb hp hbad
    obtain ⟨m, hv⟩ := part1 ps p hp hbad
    refine ⟨m, ?_⟩
    unfold searchPatternImpl
    rw [if_neg hpat, hb]
    dsimp only
    rw [hv]
  · unfold validatePaths checkInitialized
    rw [hinit]
    rfl

/-- Witness for C1 at a concrete configuration: `/etc` is not under the allowed
path `/root/data`, so validation raises and the search returns the error
record without running ripgrep; passing no paths yields the allowed paths. -/
theorem ripgrep_path_allowlist_witness :
    (∃ m, validatePaths ⟨true, "local", [["root", "data"]], [], 100, "10M", 30⟩
      (some [["etc"]]) = .error (.permissionError m)) ∧
    (∃ m, searchPatternImpl ⟨true, "local", [["root", "data"]], [], 100, "10M", 30⟩
        (fun _ => .ok []) "x" (some [["etc"]]) none 3 false false none =
      { query := { pattern := "x", paths := some [["etc"]], fileTypes := none,
                   contextLines := 3, caseSensitive := false,
                   wholeWords := false, maxResults := none },
        results := none, error := some (.permissionError m), ranRg := false }) ∧
    validatePaths ⟨true, "local", [["root", "data"]], [], 100, "10M", 30⟩ none =
      .ok [["root", "data"]] := by
  have h := ripgrep_path_allowlist ⟨true, "local", [["root", "data"]], [], 100, "10M", 30⟩ rfl
  refine ⟨h.1 [["etc"]] ["etc"] (by decide) (by decide), ?_, h.2.2⟩
  exact h.2.1 (fun _ => .ok []) "x" [["etc"]] ["etc"] none 3 false false none
    (by decide) rfl (by decide) (by decide)

/-- C8 counterexample: with configured `max_results` 5 and caller-supplied
`max_results` 0, a search that finds one match returns it (1 > min 0 5 = 0) and
echoes 5, not min 0 5, in the query — Python's `max_results or config` treats a
passed 0 as "not provided". -/
theorem search_pattern_result_cap_counterexample :
    (searchPatternImpl ⟨true, "local", [["tmp"]], [], 5, "10M", 30⟩
        (fun _ => .ok [⟨"f.txt", some 1, 1, "hay"⟩]) "hay" none none 3 false false
        (some 0)).error = none ∧
    (searchPatternImpl ⟨true, "local", [["tmp"]], [], 5, "10M", 30⟩
        (fun _ => .ok [⟨"f.txt", some 1, 1, "hay"⟩]) "hay" none none 3 false false
        (some 0)).results =
      some { totalMatches := 1, matchList := [⟨"f.txt", some 1, 1, "hay"⟩] } ∧
    (searchPatternImpl ⟨true, "local", [["tmp"]], [], 5, "10M", 30⟩
        (fun _ => .ok [⟨"f.txt", some 1, 1, "hay"⟩]) "hay" none none 3 false false
        (some 0)).query.maxResults = some 5 ∧
    ¬(1 ≤ min 0 5) ∧ (5 : Nat) ≠ min 0 5 := by
  decide

/-- C8 (amended): in every successful result of `search_pattern_impl`, the
number of matches returned is at most the effective limit, and that limit is
echoed in the query's `max_results` field; the effective limit is
min(caller-supplied max_results, configured max_results) whenever the
caller-supplied value is positive, and the configured max_results when the
caller passes `None` or `0` (Python falsiness). -/
theorem search_pattern_result_cap (cfg : RgConfig)
    (run : List String → Except PyErr (List RgMatch)) (pattern : String)
    (paths : Option (List RPath)) (fileTypes : Option (List String))
    (contextLines : Nat) (caseSensitive wholeWords : Bool) (maxResults : Option Nat)
    (out : SearchOutcome)
    (hout : out = searchPatternImpl cfg run pattern paths fileTypes contextLines
      caseSensitive wholeWords maxResults)
    (hsucc : out.error = none) :
    (∃ r, out.results = some r ∧
      r.totalMatches ≤ effectiveMaxResults cfg maxResults ∧
      r.totalMatches = r.matchList.length) ∧
    out.query.maxResults = some (effectiveMaxResults cfg maxResults) ∧
    (∀ m, maxResults = some m → 0 < m →
      effectiveMaxResults cfg maxResults = min m cfg.maxResults) ∧
    ((maxResults = none ∨ maxResults = some 0) →
      effectiveMaxResults cfg maxResults = cfg.maxResults) := by
  have heffPos : ∀ m, maxResults = some m → 0 < m →
      effectiveMaxResults cfg maxResults = min m cfg.maxResults := by
    intro m hm hpos
    subst hm
    have hne : m ≠ 0 := Nat.pos_iff_ne_zero.mp hpos
    simp [effectiveMaxResults, hne]
  have heffZero : (maxResults = none ∨ maxResults = some 0) →
      effectiveMaxResults cfg maxResults = cfg.maxResults := by
    rintro (hm | hm) <;> subst hm <;> simp [effectiveMaxResults]
  subst hout
  unfold searchPatternImpl at hsucc ⊢
  by_cases hp : pyStrip pattern = ""
  · rw [if_pos hp] at hsucc
    simp at hsucc
  · rw [if_neg hp] at hsucc ⊢
    cases hb : shouldBlockPattern cfg pattern with
    | error e =>
      rw [hb] at hsucc
      simp at hsucc
    | ok b =>
      rw [hb] at hsucc
      cases b with
      | true => simp at hsucc
      | false =>
        dsimp only at hsucc ⊢
        cases hvp : validatePaths cfg paths with
        | error e =>
          rw [hvp] at hsucc
          simp at hsucc
        | ok vp =>
          rw [hvp] at hsucc
          dsimp only at hsucc ⊢
          cases hr : run (buildRipgrepCommand cfg pattern vp fileTypes contextLines
              caseSensitive wholeWords false (some (effectiveMaxResults cfg maxResults))) with
          | error e =>
            rw [hr] at hsucc
            simp at hsucc
          | ok matches0 =>
            rw [hr] at hsucc
            dsimp only at hsucc ⊢
            refine ⟨⟨_, rfl, ?_, rfl⟩, rfl, heffPos, heffZero⟩
            dsimp only
            split
            · rw [List.length_take]
              omega
            · omega

/-- Witness for C8 (amended) at a concrete input: configured max 5, caller max
2, three matches found, two returned and the limit 2 echoed. -/
theorem search_pattern_result_cap_witness :
    (∃ r, (searchPatternImpl ⟨true, "local", [["tmp"]], [], 5, "10M", 30⟩
        (fun _ => .ok [⟨"a", some 1, 1, "x"⟩, ⟨"b", some 2, 1, "y"⟩, ⟨"c", some 3, 1, "z"⟩])
        "hay" none none 3 false false (some 2)).results = some r ∧
      r.totalMatches ≤ effectiveMaxResults ⟨true, "local", [["tmp"]], [], 5, "10M", 30⟩ (some 2) ∧
      r.totalMatches = r.matchList.length) ∧
    (searchPatternImpl ⟨true, "local", [["tmp"]], [], 5, "10M", 30⟩
        (fun _ => .ok [⟨"a", some 1, 1, "x"⟩, ⟨"b", some 2, 1, "y"⟩, ⟨"c", some 3, 1, "z"⟩])
        "hay" none none 3 false false (some 2)).query.maxResults =
      some (effectiveMaxResults ⟨true, "local", [["tmp"]], [], 5, "10M", 30⟩ (some 2)) ∧
    (∀ m, (some 2 : Option Nat) = some m → 0 < m →
      effectiveMaxResults ⟨true, "local", [["tmp"]], [], 5, "10M", 30⟩ (some 2) =
        min m (5 : Nat)) ∧
    (((some 2 : Option Nat) = none ∨ (some 2 : Option Nat) = some 0) →
      effectiveMaxResults ⟨true, "local", [["tmp"]], [], 5, "10M", 30⟩ (some 2) = 5) :=
  search_pattern_result_cap ⟨true, "local", [["tmp"]], [], 5, "10M", 30⟩
    (fun _ => .ok [⟨"a", some 1, 1, "x"⟩, ⟨"b", some 2, 1, "y"⟩, ⟨"c", some 3, 1, "z"⟩])
    "hay" none none 3 false false (some 2) _ rfl (by decide)

/-- `find_symbol_impl` always has at least one regex to search. -/
theorem symbolPatterns_ne_nil (symbol st : String) : symbolPatterns symbol st ≠ [] := by
  unfold symbolPatterns
  split
  · simp
  · split
    · simp
    · split <;> simp

/-- With a runner that always raises, the symbol-pattern loop raises. -/
theorem findSymbolLoop_raises (cfg : RgConfig) (symbol st : String) (exactMatch : Bool)
    (vp : List RPath) (e : PyErr) (ps : List String) (h : ps ≠ []) :
    findSymbolLoop cfg (fun _ => .error e) symbol st exactMatch vp ps = .error e := by
  cases ps with
  | nil => exact absurd rfl h
  | cons p rest => rfl

/-- C2: every wrapper of an external call catches exceptions broadly and
returns an error-flagged or empty/falsy value instead of propagating.  With an
external call that raises an arbitrary exception: each ripgrep `*_impl`
function returns a dictionary with `error` set and `results` (`result`) None;
`clone_repository` returns None whenever it starts the git subprocess at all
(a cache hit returns without calling git), and in particular returns None when
forced to re-clone; `get_files_from_clone` returns the empty list. -/
theorem broad_exception_handlers :
    (∀ (cfg : RgConfig) pattern paths fileTypes contextLines caseSensitive wholeWords
        maxResults (e : PyErr),
      (searchPatternImpl cfg (fun _ => .error e) pattern paths fileTypes contextLines
          caseSensitive wholeWords maxResults).results = none ∧
      (searchPatternImpl cfg (fun _ => .error e) pattern paths fileTypes contextLines
          caseSensitive wholeWords maxResults).error.isSome = true) ∧
    (∀ (cfg : RgConfig) symbol symbolType paths exactMatch (e : PyErr),
      (findSymbolImpl cfg (fun _ => .error e) symbol symbolType paths exactMatch).results =
        none ∧
      (findSymbolImpl cfg (fun _ => .error e) symbol symbolType paths
          exactMatch).error.isSome = true) ∧
    (∀ (cfg : RgConfig) statOf namePattern contentPattern paths maxSize includeStats
        (e : PyErr),
      (searchFilesImpl cfg (fun _ => .error e) (fun _ => .error e) statOf namePattern
          contentPattern paths maxSize includeStats).results = none ∧
      (searchFilesImpl cfg (fun _ => .error e) (fun _ => .error e) statOf namePattern
          contentPattern paths maxSize includeStats).error.isSome = true) ∧
    (∀ (cfg : RgConfig) filePath lineNumber contextLines includeLineNumbers (e : PyErr),
      (getFileContextImpl cfg (fun _ => .error e) filePath lineNumber contextLines
          includeLineNumbers).result = none ∧
      (getFileContextImpl cfg (fun _ => .error e) filePath lineNumber contextLines
          includeLineNumbers).error.isSome = true) ∧
    (∀ (cfg : RgConfig) statOf lineCountOf paths includeMetrics fileTypes
        includeLanguageStats maxFilesToScan (e : PyErr),
      (analyzeCodebaseImpl cfg (fun _ => .error e) statOf lineCountOf paths includeMetrics
          fileTypes includeLanguageStats maxFilesToScan).results = none ∧
      (analyzeCodebaseImpl cfg (fun _ => .error e) statOf lineCountOf paths includeMetrics
          fileTypes includeLanguageStats maxFilesToScan).error.isSome = true) ∧
    (∀ (cfg : ClonerConfig) pe su gb ds ts tnow clones repoName org branch authToken depth
        recurseSubmodules forceReclone (e : PyErr),
      ((cloneRepository cfg ⟨pe, fun _ => .error e, su, gb, ds, ts, tnow⟩ clones repoName org
          branch authToken depth recurseSubmodules forceReclone).result = none ∨
        (cloneRepository cfg ⟨pe, fun _ => .error e, su, gb, ds, ts, tnow⟩ clones repoName org
          branch authToken depth recurseSubmodules forceReclone).ranGit = false) ∧
      (cloneRepository cfg ⟨pe, fun _ => .error e, su, gb, ds, ts, tnow⟩ clones repoName org
          branch authToken depth recurseSubmodules true).result = none) ∧
    (∀ cloneExists fnm statOf readF filePatterns includeContent (e : PyErr),
      getFilesFromClone ⟨cloneExists, .error e, fnm, statOf, readF⟩ filePatterns
        includeContent = []) := by
  refine ⟨?_, ?_, ?_, ?_, ?_, ?_, ?_⟩
  · intro cfg pattern paths fileTypes contextLines caseSensitive wholeWords maxResults e
    unfold searchPatternImpl
    by_cases hp : pyStrip pattern = ""
    · rw [if_pos hp]
      exact ⟨rfl, rfl⟩
    · rw [if_neg hp]
      cases shouldBlockPattern cfg pattern with
      | error e2 => exact ⟨rfl, rfl⟩
      | ok b =>
        cases b with
        | true => exact ⟨rfl, rfl⟩
        | false =>
          cases validatePaths cfg paths with
          | error e2 => exact ⟨rfl, rfl⟩
          | ok vp => exact ⟨rfl, rfl⟩
  · intro cfg symbol symbolType paths exactMatch e
    unfold findSymbolImpl
    by_cases hs : pyStrip symbol = ""
    · rw [if_pos hs]
      exact ⟨rfl, rfl⟩
    · rw [if_neg hs]
      cases validatePaths cfg paths with
      | error e2 => exact ⟨rfl, rfl⟩
      | ok vp =>
        dsimp only
        rw [findSymbolLoop_raises cfg symbol _ exactMatch vp e _ (symbolPatterns_ne_nil _ _)]
        exact ⟨rfl, rfl⟩
  · intro cfg statOf namePattern contentPattern paths maxSize includeStats e
    unfold searchFilesImpl
    dsimp only
    split
    · exact ⟨rfl, rfl⟩
    · rename_i hcond
      cases validatePaths cfg paths with
      | error e2 => exact ⟨rfl, rfl⟩
      | ok vp =>
        dsimp only
        cases hnt : (match namePattern with
            | some s => if s = "" then none else some s
            | none => (none : Option String)) with
        | some np => exact ⟨rfl, rfl⟩
        | none =>
          cases hct : (match contentPattern with
              | some s => if s = "" then none else some s
              | none => (none : Option String)) with
          | some cp => exact ⟨rfl, rfl⟩
          | none =>
            rw [hnt, hct] at hcond
            exact absurd ⟨rfl, rfl⟩ hcond
  · intro cfg filePath lineNumber contextLines includeLineNumbers e
    unfold getFileContextImpl
    split
    · exact ⟨rfl, rfl⟩
    · cases validatePaths cfg (some [filePath]) with
      | error e2 => exact ⟨rfl, rfl⟩
      | ok vp =>
        dsimp only
        cases e <;> exact ⟨rfl, rfl⟩
  · intro cfg statOf lineCountOf paths includeMetrics fileTypes includeLanguageStats
      maxFilesToScan e
    unfold analyzeCodebaseImpl
    cases validatePaths cfg paths with
    | error e2 => exact ⟨rfl, rfl⟩
    | ok vp => exact ⟨rfl, rfl⟩
  · intro cfg pe su gb ds ts tnow clones repoName org branch authToken depth
      recurseSubmodules forceReclone e
    constructor
    · unfold cloneRepository
      dsimp only
      split
      · split
        · exact Or.inr rfl
        · exact Or.inl rfl
      · exact Or.inl rfl
      · exact Or.inl rfl
    · rfl
  · intro cloneExists fnm statOf readF filePatterns includeContent e
    unfold getFilesFromClone
    cases cloneExists <;> rfl

/-- Keys absent from an association list look up to `none`. -/
theorem dlookup_eq_none_of_not_mem {α : Type} (m : List (String × α)) (k : String)
    (h : k ∉ m.map Prod.fst) : dlookup m k = none := by
  induction m with
  | nil => rfl
  | cons kv rest ih =>
    unfold dlookup
    have hk : kv.1 ≠ k := by
      intro he
      exact h (by simp [← he])
    rw [if_neg hk]
    exact ih (fun hm => h (by simp [hm]))

/-- Deleting a key from a duplicate-free association list removes it. -/
theorem dlookup_derase_self {α : Type} (m : List (String × α)) (k : String)
    (hnd : (m.map Prod.fst).Nodup) : dlookup (derase m k) k = none := by
  induction m with
  | nil => rfl
  | cons kv rest ih =>
    unfold derase
    by_cases hk : kv.1 = k
    · rw [if_pos hk]
      apply dlookup_eq_none_of_not_mem
      rw [← hk]
      exact (List.nodup_cons.mp (by simpa using hnd)).1
    · rw [if_neg hk]
      unfold dlookup
      rw [if_neg hk]
      exact ih (List.nodup_cons.mp (by simpa using hnd)).2

/-- Whatever the subprocesses do, a fresh clone attempt starts git, and the
resulting `active_clones` is the input map plus the new entry on success, the
input map unchanged on failure. -/
theorem doClone_spec (cfg : ClonerConfig) (env : CloneEnv)
    (m : List (String × CloneInfo)) (key fullName repoName : String)
    (org branch authToken : Option String) (depth : Option Nat) (rec : Bool) :
    (doClone cfg env m key fullName repoName org branch authToken depth rec).ranGit = true ∧
    (∀ ci, (doClone cfg env m key fullName repoName org branch authToken depth rec).result =
        some ci →
      (doClone cfg env m key fullName repoName org branch authToken depth rec).clones =
        dinsert m key ci) ∧
    ((doClone cfg env m key fullName repoName org branch authToken depth rec).result = none →
      (doClone cfg env m key fullName repoName org branch authToken depth rec).clones = m) := by
  unfold doClone
  dsimp only
  repeat' split
  all_goals exact ⟨rfl, fun ci hci => by cases hci <;> rfl, fun hres => by cases hres <;> rfl⟩

/-- C5: the clone cache.  With `force_reclone` false and the clone key present
in `active_clones`: if the recorded path still exists, the cached `CloneInfo`
is returned unchanged, the map is untouched and no git subprocess runs; if the
path is gone, the stale entry is removed from the map before the fresh clone is
attempted (git does run, and the resulting map is the erased map plus the new
entry only on success — in particular, on failure the key is gone). -/
theorem clone_repository_cache (cfg : ClonerConfig) (env : CloneEnv)
    (clones : List (String × CloneInfo)) (repoName : String)
    (org branch authToken : Option String) (depth : Option Nat)
    (recurseSubmodules : Bool) (info : CloneInfo)
    (hnd : (clones.map Prod.fst).Nodup)
    (hkey : dlookup clones (cloneKey (fullRepoName repoName org) branch recurseSubmodules) =
      some info) :
    (env.pathExists info.clonePath = true →
      cloneRepository cfg env clones repoName org branch authToken depth recurseSubmodules
          false =
        { result := some info, clones := clones, ranGit := false }) ∧
    (env.pathExists info.clonePath = false →
      (cloneRepository cfg env clones repoName org branch authToken depth recurseSubmodules
          false).ranGit = true ∧
      (∀ ci, (cloneRepository cfg env clones repoName org branch authToken depth
          recurseSubmodules false).result = some ci →
        (cloneRepository cfg env clones repoName org branch authToken depth
            recurseSubmodules false).clones =
          dinsert
            (derase clones (cloneKey (fullRepoName repoName org) branch recurseSubmodules))
            (cloneKey (fullRepoName repoName org) branch recurseSubmodules) ci) ∧
      ((cloneRepository cfg env clones repoName org branch authToken depth recurseSubmodules
          false).result = none →
        (cloneRepository cfg env clones repoName org branch authToken depth
            recurseSubmodules false).clones =
          derase clones (cloneKey (fullRepoName repoName org) branch recurseSubmodules)) ∧
      ((cloneRepository cfg env clones repoName org branch authToken depth recurseSubmodules
          false).result = none →
        dlookup (cloneRepository cfg env clones repoName org branch authToken depth
            recurseSubmodules false).clones
          (cloneKey (fullRepoName repoName org) branch recurseSubmodules) = none)) := by
  have hred : cloneRepository cfg env clones repoName org branch authToken depth
      recurseSubmodules false =
      (if env.pathExists info.clonePath then
        { result := some info, clones := clones, ranGit := false }
      else
        doClone cfg env
          (derase clones (cloneKey (fullRepoName repoName org) branch recurseSubmodules))
          (cloneKey (fullRepoName repoName org) branch recurseSubmodules)
          (fullRepoName repoName org) repoName org branch authToken depth
          recurseSubmodules) := by
    unfold cloneRepository
    dsimp only
    rw [hkey]
  constructor
  · intro hex
    rw [hred, if_pos hex]
  · intro hex
    have hnex : ¬(env.pathExists info.clonePath = true) := by simp [hex]
    rw [hred, if_neg hnex]
    obtain ⟨hran, hsome, hnone⟩ := doClone_spec cfg env
      (derase clones (cloneKey (fullRepoName repoName org) branch recurseSubmodules))
      (cloneKey (fullRepoName repoName org) branch recurseSubmodules)
      (fullRepoName repoName org) repoName org branch authToken depth recurseSubmodules
    refine ⟨hran, hsome, hnone, ?_⟩
    intro hres
    rw [hnone hres]
    exact dlookup_derase_self clones _ hnd

/-- Witness for C5 at a concrete cached clone: an existing path is returned
as-is without git; a vanished path forces a re-clone whose failure leaves the
map without the stale key. -/
theorem clone_repository_cache_witness :
    (cloneRepository ⟨"/tmp/github_browser_clones", 24, 500⟩
        ⟨fun _ => true, fun _ => .error (.otherError "boom"),
         fun _ => .error (.otherError "boom"), fun _ => .error (.otherError "boom"),
         fun _ => 0, 1, 2⟩
        [("r#default", ⟨"r", none, "main", "/tmp/x", 0, "u", "r", false⟩)]
        "r" none none none (some 1) false false =
      { result := some ⟨"r", none, "main", "/tmp/x", 0, "u", "r", false⟩,
        clones := [("r#default", ⟨"r", none, "main", "/tmp/x", 0, "u", "r", false⟩)],
        ranGit := false }) ∧
    ((cloneRepository ⟨"/tmp/github_browser_clones", 24, 500⟩
        ⟨fun _ => false, fun _ => .error (.otherError "boom"),
         fun _ => .error (.otherError "boom"), fun _ => .error (.otherError "boom"),
         fun _ => 0, 1, 2⟩
        [("r#default", ⟨"r", none, "main", "/tmp/x", 0, "u", "r", false⟩)]
        "r" none none none (some 1) false false).ranGit = true ∧
      (∀ ci, (cloneRepository ⟨"/tmp/github_browser_clones", 24, 500⟩
          ⟨fun _ => false, fun _ => .error (.otherError "boom"),
           fun _ => .error (.otherError "boom"), fun _ => .error (.otherError "boom"),
           fun _ => 0, 1, 2⟩
          [("r#default", ⟨"r", none, "main", "/tmp/x", 0, "u", "r", false⟩)]
          "r" none none none (some 1) false false).result = some ci →
        (cloneRepository ⟨"/tmp/github_browser_clones", 24, 500⟩
            ⟨fun _ => false, fun _ => .error (.otherError "boom"),
             fun _ => .error (.otherError "boom"), fun _ => .error (.otherError "boom"),
             fun _ => 0, 1, 2⟩
            [("r#default", ⟨"r", none, "main", "/tmp/x", 0, "u", "r", false⟩)]
            "r" none none none (some 1) false false).clones =
          dinsert
            (derase [("r#default", ⟨"r", none, "main", "/tmp/x", 0, "u", "r", false⟩)]
              (cloneKey (fullRepoName "r" none) none false))
            (cloneKey (fullRepoName "r" none) none false) ci) ∧
      ((cloneRepository ⟨"/tmp/github_browser_clones", 24, 500⟩
          ⟨fun _ => false, fun _ => .error (.otherError "boom"),
           fun _ => .error (.otherError "boom"), fun _ => .error (.otherError "boom"),
           fun _ => 0, 1, 2⟩
          [("r#default", ⟨"r", none, "main", "/tmp/x", 0, "u", "r", false⟩)]
          "r" none none none (some 1) false false).result = none →
        (cloneRepository ⟨"/tmp/github_browser_clones", 24, 500⟩
            ⟨fun _ => false, fun _ => .error (.otherError "boom"),
             fun _ => .error (.otherError "boom"), fun _ => .error (.otherError "boom"),
             fun _ => 0, 1, 2⟩
            [("r#default", ⟨"r", none, "main", "/tmp/x", 0, "u", "r", false⟩)]
            "r" none none none (some 1) false false).clones =
          derase [("r#default", ⟨"r", none, "main", "/tmp/x", 0, "u", "r", false⟩)]
            (cloneKey (fullRepoName "r" none) none false)) ∧
      ((cloneRepository ⟨"/tmp/github_browser_clones", 24, 500⟩
          ⟨fun _ => false, fun _ => .error (.otherError "boom"),
           fun _ => .error (.otherError "boom"), fun _ => .error (.otherError "boom"),
           fun _ => 0, 1, 2⟩
          [("r#default", ⟨"r", none, "main", "/tmp/x", 0, "u", "r", false⟩)]
          "r" none none none (some 1) false false).result = none →
        dlookup (cloneRepository ⟨"/tmp/github_browser_clones", 24, 500⟩
            ⟨fun _ => false, fun _ => .error (.otherError "boom"),
             fun _ => .error (.otherError "boom"), fun _ => .error (.otherError "boom"),
             fun _ => 0, 1, 2⟩
            [("r#default", ⟨"r", none, "main", "/tmp/x", 0, "u", "r", false⟩)]
            "r" none none none (some 1) false false).clones
          (cloneKey (fullRepoName "r" none) none false) = none)) := by
  constructor
  · exact (clone_repository_cache ⟨"/tmp/github_browser_clones", 24, 500⟩
      ⟨fun _ => true, fun _ => .error (.otherError "boom"),
       fun _ => .error (.otherError "boom"), fun _ => .error (.otherError "boom"),
       fun _ => 0, 1, 2⟩
      [("r#default", ⟨"r", none, "main", "/tmp/x", 0, "u", "r", false⟩)]
      "r" none none none (some 1) false ⟨"r", none, "main", "/tmp/x", 0, "u", "r", false⟩
      (by simp) rfl).1 rfl
  · exact (clone_repository_cache ⟨"/tmp/github_browser_clones", 24, 500⟩
      ⟨fun _ => false, fun _ => .error (.otherError "boom"),
       fun _ => .error (.otherError "boom"), fun _ => .error (.otherError "boom"),
       fun _ => 0, 1, 2⟩
      [("r#default", ⟨"r", none, "main", "/tmp/x", 0, "u", "r", false⟩)]
      "r" none none none (some 1) false ⟨"r", none, "main", "/tmp/x", 0, "u", "r", false⟩
      (by simp) rfl).2 rfl

/-- The orphan sweep deletes an entry exactly when it is a directory whose
modification time was read and is strictly before the cutoff. -/
theorem orphanDeleted_iff (cutoff : Int) (e : DirEntry) :
    orphanDeleted cutoff e = true ↔
      (e.isDir = true ∧ ∃ m, e.stat = some m ∧ m < cutoff) := by
  unfold orphanDeleted
  cases hs : e.stat <;> simp [hs]

/-- C4: the construction-time sweep.  `RepositoryCloner.__init__` starts with an
empty `active_clones` and runs `_cleanup_old_clones`; among the entries of the
clone base directory it deletes exactly the subdirectories whose modification
time is strictly older than the `now - auto_cleanup_hours` cutoff, and every
subdirectory whose modification time is at or after the cutoff survives. -/
theorem cloner_init_cleanup (now hours : Int) (entries : List DirEntry) :
    (∀ e, e ∈ (clonerInit now hours entries).2.2 ↔
      (e ∈ entries ∧ e.isDir = true ∧ ∃ m, e.stat = some m ∧ m < now - hours * 3600)) ∧
    (∀ e, e ∈ entries → e.isDir = true →
      (∀ m, e.stat = some m → now - hours * 3600 ≤ m) →
      e ∈ (clonerInit now hours entries).2.1) ∧
    (clonerInit now hours entries).1 = [] := by
  refine ⟨?_, ?_, rfl⟩
  · intro e
    show e ∈ entries.filter (orphanDeleted (now - hours * 3600)) ↔ _
    rw [List.mem_filter, orphanDeleted_iff]
  · intro e hmem hdir hfresh
    show e ∈ entries.filter (fun e => ¬orphanDeleted (now - hours * 3600) e)
    rw [List.mem_filter]
    refine ⟨hmem, ?_⟩
    simp only [Bool.not_eq_true', decide_eq_true_eq, Bool.not_eq_true]
    cases hs : e.stat with
    | none => simp [orphanDeleted, hs]
    | some m =>
      have := hfresh m hs
      simp [orphanDeleted, hs]
      omega

/-- Witness for C4: with `now = 100000` and a 1-hour cutoff, a directory last
modified at time 0 is deleted and one modified at time 100000 survives. -/
theorem cloner_init_cleanup_witness :
    (⟨"old", true, some 0⟩ : DirEntry) ∈
      (clonerInit 100000 1 [⟨"old", true, some 0⟩, ⟨"new", true, some 100000⟩]).2.2 ∧
    (⟨"new", true, some 100000⟩ : DirEntry) ∈
      (clonerInit 100000 1 [⟨"old", true, some 0⟩, ⟨"new", true, some 100000⟩]).2.1 := by
  constructor
  · exact ((cloner_init_cleanup 100000 1
      [⟨"old", true, some 0⟩, ⟨"new", true, some 100000⟩]).1 ⟨"old", true, some 0⟩).mpr
      ⟨by decide, rfl, ⟨0, rfl, by decide⟩⟩
  · exact (cloner_init_cleanup 100000 1
      [⟨"old", true, some 0⟩, ⟨"new", true, some 100000⟩]).2.1 ⟨"new", true, some 100000⟩
      (by decide) rfl (fun m hm => by cases hm; decide)

mutual
/-- Every path produced by walking one entry extends the prefix by a nonempty
suffix whose directory components never include `.git`. -/
theorem walkEntry_components (pre : List String) (e : FsEntry) :
    ∀ p ∈ walkEntry pre e, ∃ q, p = pre ++ q ∧ q ≠ [] ∧ ".git" ∉ q.dropLast := by
  cases e with
  | file n =>
    intro p hp
    simp only [walkEntry, List.mem_singleton] at hp
    exact ⟨[n], hp, by simp, by simp⟩
  | dir n cs =>
    intro p hp
    unfold walkEntry at hp
    by_cases hn : n = ".git"
    · rw [if_pos hn] at hp
      cases hp
    · rw [if_neg hn] at hp
      obtain ⟨q, hq, hne, hgit⟩ := walkEntries_components (pre ++ [n]) cs p hp
      refine ⟨n :: q, by simpa using hq, by simp, ?_⟩
      intro hmem
      cases q with
      | nil => exact hne rfl
      | cons a as =>
        rw [List.dropLast_cons_of_ne_nil (by simp)] at hmem
        cases hmem with
        | head => exact hn rfl
        | tail _ h => exact hgit h

/-- Every path produced by walking a list of entries extends the prefix by a
nonempty suffix whose directory components never include `.git`. -/
theorem walkEntries_components (pre : List String) (es : List FsEntry) :
    ∀ p ∈ walkEntries pre es, ∃ q, p = pre ++ q ∧ q ≠ [] ∧ ".git" ∉ q.dropLast := by
  cases es with
  | nil =>
    intro p hp
    simp [walkEntries] at hp
  | cons e rest =>
    intro p hp
    unfold walkEntries at hp
    rcases List.mem_append.mp hp with h | h
    · exact walkEntry_components pre e p h
    · exact walkEntries_components pre rest p h
end

/-- De-duplication produces a duplicate-free list avoiding the seen set. -/
theorem dedupPaths_nodup (l seen : List (List String)) :
    (dedupPaths l seen).Nodup ∧ ∀ p ∈ dedupPaths l seen, p ∉ seen := by
  induction l generalizing seen with
  | nil => exact ⟨List.nodup_nil, by intro p hp; simp [dedupPaths] at hp⟩
  | cons p rest ih =>
    unfold dedupPaths
    by_cases hp : p ∈ seen
    · rw [if_pos hp]
      exact ih seen
    · rw [if_neg hp]
      obtain ⟨hnd, hns⟩ := ih (p :: seen)
      refine ⟨List.nodup_cons.mpr ⟨?_, hnd⟩, ?_⟩
      · intro hmem
        exact hns p hmem (List.mem_cons_self p seen)
      · intro q hq
        cases hq with
        | head => exact hp
        | tail _ h =>
          intro hqs
          exact hns q h (List.mem_cons_of_mem p hqs)

/-- De-duplication only keeps elements of its input. -/
theorem dedupPaths_subset (l : List (List String)) :
    ∀ seen, ∀ p ∈ dedupPaths l seen, p ∈ l := by
  induction l with
  | nil => intro seen p hp; simp [dedupPaths] at hp
  | cons q rest ih =>
    intro seen p hp
    unfold dedupPaths at hp
    by_cases hq : q ∈ seen
    · rw [if_pos hq] at hp
      exact List.mem_cons_of_mem q (ih seen p hp)
    · rw [if_neg hq] at hp
      cases hp with
      | head => exact List.mem_cons_self q rest
      | tail _ h => exact List.mem_cons_of_mem q (ih (q :: seen) p h)

/-- The `file_info` record keeps the relative path it was built from. -/
theorem mkCloneFileInfo_path (env : FilesEnv) (ic : Bool) (rp : List String)
    (size : Nat) (mtime : Int) : (mkCloneFileInfo env ic rp size mtime).path = rp := by
  unfold mkCloneFileInfo
  repeat' split
  all_goals rfl

/-- The paths of the per-file records form a sublist of the de-duplicated path
list (stat failures only drop entries). -/
theorem filesFilterMap_paths_sublist (env : FilesEnv) (ic : Bool) :
    ∀ l : List (List String),
      ((l.filterMap (fun rp =>
        match env.statOf rp with
        | none => none
        | some (size, mtime) => some (mkCloneFileInfo env ic rp size mtime))).map
          (fun r => r.path)).Sublist l := by
  intro l
  induction l with
  | nil => simp
  | cons p rest ih =>
    rw [List.filterMap_cons]
    cases hs : env.statOf p with
    | none => exact ih.cons p
    | some sm =>
      rw [List.map_cons, mkCloneFileInfo_path]
      exact ih.cons₂ p

/-- C9: `get_files_from_clone` returns no two entries with the same relative
path (even when several glob patterns match the same file), and no entry lying
under a `.git` directory — in particular none under the clone's top-level
`.git`. -/
theorem get_files_from_clone_invariants (env : FilesEnv) (filePatterns : List String)
    (includeContent : Bool) :
    (((getFilesFromClone env filePatterns includeContent).map (fun r => r.path)).Nodup) ∧
    (∀ r ∈ getFilesFromClone env filePatterns includeContent,
      ".git" ∉ r.path.dropLast) := by
  unfold getFilesFromClone
  by_cases hce : env.cloneExists = true
  case neg =>
    rw [if_pos (by simpa using hce)]
    exact ⟨List.nodup_nil, by intro r hr; cases hr⟩
  case pos =>
    rw [if_neg (by simpa using hce)]
    cases ht : env.tree with
    | error e => exact ⟨List.nodup_nil, by intro r hr; cases hr⟩
    | ok entries =>
      dsimp only
      constructor
      · exact ((dedupPaths_nodup _ []).1).sublist
          (filesFilterMap_paths_sublist env includeContent _)
      · intro r hr
        have hrp : r.path ∈ dedupPaths (filePatterns.flatMap
            (fun pat => (walkEntries [] entries).filter (fun rp => env.fnmatch rp pat))) [] := by
          have hsub := filesFilterMap_paths_sublist env includeContent
            (dedupPaths (filePatterns.flatMap
              (fun pat => (walkEntries [] entries).filter (fun rp => env.fnmatch rp pat))) [])
          exact hsub.subset (List.mem_map_of_mem (fun r => r.path) hr)
        have hmatched := dedupPaths_subset _ [] _ hrp
        have hall : r.path ∈ walkEntries [] entries := by
          rcases List.mem_flatMap.mp hmatched with ⟨pat, _, hmem⟩
          exact (List.mem_filter.mp hmem).1
        obtain ⟨q, hq, _, hgit⟩ := walkEntries_components [] entries r.path hall
        rw [List.nil_append] at hq
        rw [hq]
        exact hgit

/-- C3 counterexample: with notifications enabled, the webhook URL set and a
non-empty message, a Slack endpoint answering HTTP 204 makes
`send_slack_notification` return False — the Slack notifier treats only
HTTP 200 with body "ok" as success, so the claim fails for Slack. -/
theorem webhook_204_counterexample :
    sendSlackNotification ⟨none, some "https://hooks.slack.example/T000/B000"⟩
      (fun _ _ => .ok ⟨204, ""⟩) "hello" "" = false := by
  decide

/-- C3 (amended): with notifications enabled, the webhook URL set and a
non-empty message, `send_discord_notification` returns True exactly when the
endpoint answers HTTP 204; `send_slack_notification` returns True exactly when
the endpoint answers HTTP 200 with body "ok" (and so returns False on 204). -/
theorem webhook_status_checks :
    (∀ (env : DiscordEnv) (message title : String) (botName : Option String)
        (url : String) (r : HttpResponse),
      message ≠ "" →
      pyLower (env.enabled.getD "true") ≠ "false" →
      env.webhookUrl = some url → url ≠ "" →
      (sendDiscordNotification env (fun _ _ => .ok r) message title botName = true ↔
        r.statusCode = 204)) ∧
    (∀ (env : SlackEnv) (message title : String) (url : String) (r : HttpResponse),
      pyLower (env.enabled.getD "true") ≠ "false" →
      env.webhookUrl = some url → url ≠ "" →
      (sendSlackNotification env (fun _ _ => .ok r) message title = true ↔
        (r.statusCode = 200 ∧ r.text = "ok"))) := by
  constructor
  · intro env message title botName url r hmsg hen hurl hurlne
    unfold sendDiscordNotification
    rw [if_neg hmsg, if_neg hen, hurl]
    dsimp only
    rw [if_neg hurlne]
    by_cases hst : r.statusCode = 204
    · simp [hst]
    · simp [hst]
  · intro env message title url r hen hurl hurlne
    unfold sendSlackNotification
    rw [if_neg hen, hurl]
    dsimp only
    rw [if_neg hurlne]
    by_cases hst : r.statusCode = 200 ∧ r.text = "ok"
    · simp [if_pos hst, hst]
    · simp [if_neg hst]
      intro h1 h2
      exact hst ⟨h1, h2⟩

/-- Witness for C3 (amended): a Discord endpoint answering 204 yields True and
a Slack endpoint answering 200/"ok" yields True, at concrete environments. -/
theorem webhook_status_checks_witness :
    (sendDiscordNotification ⟨none, some "https://discord.example/api/webhooks/1/t", none⟩
        (fun _ _ => .ok ⟨204, ""⟩) "hello" "" none = true ↔ (204 : Nat) = 204) ∧
    (sendSlackNotification ⟨none, some "https://hooks.slack.example/T000/B000"⟩
        (fun _ _ => .ok ⟨200, "ok"⟩) "hello" "" = true ↔
      ((200 : Nat) = 200 ∧ "ok" = "ok")) := by
  constructor
  · exact webhook_status_checks.1 ⟨none, some "https://discord.example/api/webhooks/1/t", none⟩
      "hello" "" none "https://discord.example/api/webhooks/1/t" ⟨204, ""⟩
      (by decide) (by decide) rfl (by decide)
  · exact webhook_status_checks.2 ⟨none, some "https://hooks.slack.example/T000/B000"⟩
      "hello" "" "https://hooks.slack.example/T000/B000" ⟨200, "ok"⟩
      (by decide) rfl (by decide)

/-- Witness for C9 on a concrete one-file clone: the returned paths are
duplicate-free and the single returned file does not lie under `.git`. -/
theorem get_files_from_clone_invariants_witness :
    (((getFilesFromClone
        ⟨true, .ok [.file "a.txt"], fun _ _ => true, fun _ => some (1, 0), fun _ => .ok "x"⟩
        ["*"] false).map (fun r => r.path)).Nodup) ∧
    ".git" ∉ (mkCloneFileInfo
        ⟨true, .ok [.file "a.txt"], fun _ _ => true, fun _ => some (1, 0), fun _ => .ok "x"⟩
        false ["a.txt"] 1 0).path.dropLast := by
  constructor
  · exact (get_files_from_clone_invariants
      ⟨true, .ok [.file "a.txt"], fun _ _ => true, fun _ => some (1, 0), fun _ => .ok "x"⟩
      ["*"] false).1
  · refine (get_files_from_clone_invariants
      ⟨true, .ok [.file "a.txt"], fun _ _ => true, fun _ => some (1, 0), fun _ => .ok "x"⟩
      ["*"] false).2 _ ?_
    simp [getFilesFromClone, walkEntries, walkEntry, dedupPaths]

/-- The retry loop uses between 1 and `fuel + 1` attempts and sleeps the
configured wait before each retry made. -/
theorem retryGo_spec {α : Type} (body : Nat → Except GeminiErr α) (wait : Nat → Nat) :
    ∀ (fuel i : Nat),
      i + 1 ≤ (retryGo body wait i fuel).2.1 ∧
      (retryGo body wait i fuel).2.1 ≤ i + fuel + 1 ∧
      (retryGo body wait i fuel).2.2 =
        (List.range' (i + 1) ((retryGo body wait i fuel).2.1 - (i + 1))).map wait := by
  intro fuel
  induction fuel with
  | zero =>
    intro i
    refine ⟨Nat.le_refl _, by simp [retryGo], ?_⟩
    simp [retryGo]
  | succ fuel ih =>
    intro i
    unfold retryGo
    cases hb : body i with
    | ok v =>
      dsimp only
      refine ⟨Nat.le_refl _, by omega, ?_⟩
      simp
    | error e =>
      obtain ⟨h1, h2, h3⟩ := ih (i + 1)
      dsimp only
      refine ⟨by omega, by omega, ?_⟩
      have hn : (retryGo body wait (i + 1) fuel).2.1 - (i + 1) =
          ((retryGo body wait (i + 1) fuel).2.1 - (i + 2)) + 1 := by omega
      rw [h3, hn, List.range'_succ, List.map_cons]

/-- When every attempt in range fails, the retry loop exhausts its attempts and
re-raises the result of the final attempt. -/
theorem retryGo_all_fail {α : Type} (body : Nat → Except GeminiErr α) (wait : Nat → Nat) :
    ∀ (fuel i : Nat), (∀ j, i ≤ j → j ≤ i + fuel → ∃ g, body j = .error g) →
      (retryGo body wait i fuel).1 = body (i + fuel) ∧
      (retryGo body wait i fuel).2.1 = i + fuel + 1 := by
  intro fuel
  induction fuel with
  | zero =>
    intro i h
    exact ⟨by simp [retryGo], by simp [retryGo]⟩
  | succ fuel ih =>
    intro i h
    obtain ⟨g, hg⟩ := h i (Nat.le_refl i) (by omega)
    unfold retryGo
    rw [hg]
    dsimp only
    obtain ⟨h1, h2⟩ := ih (i + 1) (fun j hj1 hj2 => h j (by omega) (by omega))
    constructor
    · rw [h1]
      congr 1
      omega
    · rw [h2]
      omega

/-- C6: the decorated `_make_gemini_request` is attempted at most 3 times; the
waits between attempts follow the configured clamped exponential schedule; an
exception whose text indicates rate limiting (contains "rate limit", "quota"
or "429", case-insensitively) is re-raised as `RateLimitError` and any other
as-is; and when all attempts fail, the final attempt's exception is re-raised
to the caller rather than swallowed. -/
theorem gemini_request_retry {α : Type} (calls : Nat → Except String α) :
    (makeGeminiRequest calls).2.1 ≤ 3 ∧
    (makeGeminiRequest calls).2.2 =
      (List.range' 1 ((makeGeminiRequest calls).2.1 - 1)).map (waitExponential 1 4 10) ∧
    (∀ e : String, rateLimitText e = true →
      makeGeminiRequestOnce (.error e : Except String α) =
        .error (.rateLimitError ("Rate limit exceeded: " ++ e))) ∧
    (∀ e : String, rateLimitText e = false →
      makeGeminiRequestOnce (.error e : Except String α) = .error (.apiError e)) ∧
    ((∀ i, i < 3 → ∃ e, calls i = .error e) →
      (makeGeminiRequest calls).1 = makeGeminiRequestOnce (calls 2) ∧
      (makeGeminiRequest calls).2.1 = 3) := by
  obtain ⟨hlo, hhi, hwaits⟩ := retryGo_spec
    (fun i => makeGeminiRequestOnce (calls i)) (waitExponential 1 4 10) 2 0
  refine ⟨hhi, hwaits, ?_, ?_, ?_⟩
  · intro e hr
    unfold makeGeminiRequestOnce
    dsimp only
    rw [if_pos hr]
  · intro e hr
    unfold makeGeminiRequestOnce
    dsimp only
    rw [if_neg (by simp [hr])]
  · intro hfail
    have hbody : ∀ j, 0 ≤ j → j ≤ 0 + 2 →
        ∃ g, (fun i => makeGeminiRequestOnce (calls i)) j = .error g := by
      intro j _ hj
      obtain ⟨e, he⟩ := hfail j (by omega)
      dsimp only
      unfold makeGeminiRequestOnce
      rw [he]
      dsimp only
      by_cases hr : rateLimitText e = true
      · rw [if_pos hr]
        exact ⟨_, rfl⟩
      · rw [if_neg hr]
        exact ⟨_, rfl⟩
    obtain ⟨h1, h2⟩ := retryGo_all_fail
      (fun i => makeGeminiRequestOnce (calls i)) (waitExponential 1 4 10) 2 0 hbody
    exact ⟨h1, h2⟩

/-- Witness for C6 at the constant rate-limited call: three attempts are used,
the waits follow the schedule, and the final `RateLimitError` is re-raised. -/
theorem gemini_request_retry_witness :
    (makeGeminiRequest (fun _ => .error "quota exceeded" : Nat → Except String Nat)).2.1 ≤ 3 ∧
    (makeGeminiRequest (fun _ => .error "quota exceeded" : Nat → Except String Nat)).2.2 =
      (List.range' 1
        ((makeGeminiRequest (fun _ => .error "quota exceeded" :
          Nat → Except String Nat)).2.1 - 1)).map (waitExponential 1 4 10) ∧
    ((makeGeminiRequest (fun _ => .error "quota exceeded" : Nat → Except String Nat)).1 =
      makeGeminiRequestOnce
        ((fun _ => .error "quota exceeded" : Nat → Except String Nat) 2) ∧
     (makeGeminiRequest (fun _ => .error "quota exceeded" : Nat → Except String Nat)).2.1 =
      3) := by
  have h := gemini_request_retry (fun _ => .error "quota exceeded" : Nat → Except String Nat)
  exact ⟨h.1, h.2.1, h.2.2.2.2 (fun i _ => ⟨"quota exceeded", rfl⟩)⟩

/-- C7: exact glossary lookup is a dictionary lookup.  When the lowercased
query is a key of `normalized_terms`, `ExactSearch.lookup` returns exactly one
result carrying the stored original-cased term, confidence 1.0 and match type
"exact"; otherwise it returns the top-3 fuzzy matches at threshold 60,
re-labelled with match type "suggestion" — in particular at most 3 results,
every one labelled "suggestion". -/
theorem exact_lookup_behaviour (glossary : List (String × List TermDefinition))
    (extract : String → List String → Nat → Nat → List (String × Nat)) (query : String) :
    (∀ t, dlookup (buildSearchIndexes glossary).1 (pyLower query) = some t →
      exactLookup glossary extract query =
        [{ term := t, definitions := (dlookup glossary t).getD [],
           confidence := 1, matchType := "exact" }]) ∧
    (dlookup (buildSearchIndexes glossary).1 (pyLower query) = none →
      exactLookup glossary extract query =
        ((fuzzySearch glossary extract query 60).take 3).map
          (fun s => { s with matchType := "suggestion" }) ∧
      (exactLookup glossary extract query).length ≤ 3 ∧
      ∀ r ∈ exactLookup glossary extract query, r.matchType = "suggestion") := by
  constructor
  · intro t ht
    unfold exactLookup
    dsimp only
    rw [ht]
  · intro hnone
    have hred : exactLookup glossary extract query =
        ((fuzzySearch glossary extract query 60).take 3).map
          (fun s => { s with matchType := "suggestion" }) := by
      unfold exactLookup
      dsimp only
      rw [hnone]
    refine ⟨hred, ?_, ?_⟩
    · rw [hred]
      simp only [List.length_map, List.length_take]
      omega
    · intro r hr
      rw [hred] at hr
      obtain ⟨s, _, hs⟩ := List.mem_map.mp hr
      rw [← hs]

/-- Witness for C7: in a one-term glossary, looking up "FOO" hits the index and
returns the single exact result for "Foo"; looking up "bar" (with the fuzzy
extractor returning nothing) falls back to the empty suggestion list. -/
theorem exact_lookup_behaviour_witness :
    (exactLookup [("Foo", [⟨"a foo", ["F"]⟩])] (fun _ _ _ _ => []) "FOO" =
      [{ term := "Foo", definitions := (dlookup [("Foo", [⟨"a foo", ["F"]⟩])] "Foo").getD [],
         confidence := 1, matchType := "exact" }]) ∧
    (exactLookup [("Foo", [⟨"a foo", ["F"]⟩])] (fun _ _ _ _ => []) "bar" =
      ((fuzzySearch [("Foo", [⟨"a foo", ["F"]⟩])] (fun _ _ _ _ => []) "bar" 60).take 3).map
        (fun s => { s with matchType := "suggestion" }) ∧
     (exactLookup [("Foo", [⟨"a foo", ["F"]⟩])] (fun _ _ _ _ => []) "bar").length ≤ 3 ∧
     ∀ r ∈ exactLookup [("Foo", [⟨"a foo", ["F"]⟩])] (fun _ _ _ _ => []) "bar",
       r.matchType = "suggestion") := by
  constructor
  · exact (exact_lookup_behaviour [("Foo", [⟨"a foo", ["F"]⟩])] (fun _ _ _ _ => []) "FOO").1
      "Foo" rfl
  · exact (exact_lookup_behaviour [("Foo", [⟨"a foo", ["F"]⟩])] (fun _ _ _ _ => []) "bar").2
      rfl

end LdAgentPlugins
